import Mathlib

/-!
# CharLS: preset coding parameters and marker segments

A shallow embedding of `src/jpegls_preset_coding_parameters.h` and
`src/jpegmarkersegment.cpp`, followed by theorems about the embedded functions.

Conventions of the embedding.

* `int`, `int32_t`, `short` and `char` values are `Int`.  Signed overflow is
  undefined in C++ and is not modelled: under the range hypotheses that the
  theorems on `compute_default` and on the factories carry, every
  intermediate value stays far below `2 ^ 31`.
* `/` on C++ integers truncates towards zero: `Int.tdiv`.
* `static_cast<uint8_t>` and `static_cast<uint16_t>` reduce modulo `2 ^ 8` and
  `2 ^ 16`; a byte is a `Nat`, a `std::vector<uint8_t>` is a `List Nat`, and
  `v.push_back(b)` is `v ++ [b]`.
* `ASSERT(...)` lines abort only in debug builds; they do not change the value
  a function returns.  They are embedded as separate precondition predicates
  (`compute_default_pre`, ...), not inside the value-level functions;
  `compute_default_checked`, `ComputeDefault_checked` and `is_valid_checked` are
  the same functions in a build where the assertions are active.
* A counted loop `for (int i = 0; i < n; ++i) body` is a left fold of `body`
  over `List.range n.toNat`.
-/

namespace charls

/-! ## Constants and helpers declared outside the two embedded files -/

/-- Modelled from the spec: `DefaultThreshold1` of `constants.h` (not among the
sources); the standard base constant, `threshold1` of the 8-bit lossless case. -/
def DefaultThreshold1 : Int := 3

/-- Modelled from the spec: `DefaultThreshold2` of `constants.h` (not among the
sources); `threshold2` of the 8-bit lossless case. -/
def DefaultThreshold2 : Int := 7

/-- Modelled from the spec: `DefaultThreshold3` of `constants.h` (not among the
sources); `threshold3` of the 8-bit lossless case. -/
def DefaultThreshold3 : Int := 21

/-- Modelled from the spec: `DefaultResetValue` of `constants.h` (not among the
sources); the fixed default reset constant. -/
def DefaultResetValue : Int := 64

/-- Modelled from the spec: `MaximumNearLossless` of the absent helper headers,
the ceiling on the lossy error for a sample depth, `min(255, m / 2)`. -/
def MaximumNearLossless (maximumSampleValue : Int) : Int :=
  min 255 (Int.tdiv maximumSampleValue 2)

/-- Conversion `static_cast<uint8_t>(x)`. -/
def to_uint8 (x : Int) : Nat := (x % 256).toNat

/-- Conversion `static_cast<uint16_t>(x)`. -/
def to_uint16 (x : Int) : Nat := (x % 65536).toNat

/-- Modelled from the spec: the helper `push_back(std::vector<uint8_t>&, uint16_t)`
of `util.h` (not among the sources): appends a 16-bit unsigned value as two
bytes, most significant byte first. -/
def push_back (values : List Nat) (value : Nat) : List Nat :=
  values ++ [value / 256, value % 256]

/-! ## `jpegls_preset_coding_parameters.h` -/

/-- The structure `jpegls_pc_parameters` (five `int32_t` fields). -/
structure jpegls_pc_parameters where
  maximum_sample_value : Int
  threshold1 : Int
  threshold2 : Int
  threshold3 : Int
  reset_value : Int
  deriving DecidableEq

/-- The legacy structure `JpegLSPresetCodingParameters`. -/
structure JpegLSPresetCodingParameters where
  MaximumSampleValue : Int
  Threshold1 : Int
  Threshold2 : Int
  Threshold3 : Int
  ResetValue : Int
  deriving DecidableEq

/-- Clamping function of ISO/IEC 14495-1, Figure C.3. -/
def clamp (i j maximumSampleValue : Int) : Int :=
  if i > maximumSampleValue ∨ i < j then j else i

/-- The two `ASSERT` lines that open `compute_default` (and `ComputeDefault`). -/
def compute_default_pre (maximum_sample_value near_lossless : Int) : Prop :=
  maximum_sample_value ≤ 65535 ∧
    (near_lossless ≥ 0 ∧ near_lossless ≤ MaximumNearLossless maximum_sample_value)

instance (m n : Int) : Decidable (compute_default_pre m n) := by
  unfold compute_default_pre; infer_instance

/-- Legacy `ComputeDefault`: default coding thresholds, ISO/IEC 14495-1, C.2.4.1.1.1. -/
def ComputeDefault (maximumSampleValue allowedLossyError : Int) : JpegLSPresetCodingParameters :=
  if maximumSampleValue ≥ 128 then
    let factor := Int.tdiv (min maximumSampleValue 4095 + 128) 256
    let threshold1 := clamp (factor * (DefaultThreshold1 - 2) + 2 + 3 * allowedLossyError)
      (allowedLossyError + 1) maximumSampleValue
    let threshold2 := clamp (factor * (DefaultThreshold2 - 3) + 3 + 5 * allowedLossyError)
      threshold1 maximumSampleValue
    { MaximumSampleValue := maximumSampleValue
      Threshold1 := threshold1
      Threshold2 := threshold2
      Threshold3 := clamp (factor * (DefaultThreshold3 - 4) + 4 + 7 * allowedLossyError)
        threshold2 maximumSampleValue
      ResetValue := DefaultResetValue }
  else
    let factor := Int.tdiv 256 (maximumSampleValue + 1)
    let threshold1 := clamp (max 2 (Int.tdiv DefaultThreshold1 factor + 3 * allowedLossyError))
      (allowedLossyError + 1) maximumSampleValue
    let threshold2 := clamp (max 3 (Int.tdiv DefaultThreshold2 factor + 5 * allowedLossyError))
      threshold1 maximumSampleValue
    { MaximumSampleValue := maximumSampleValue
      Threshold1 := threshold1
      Threshold2 := threshold2
      Threshold3 := clamp (max 4 (Int.tdiv DefaultThreshold3 factor + 7 * allowedLossyError))
        threshold2 maximumSampleValue
      ResetValue := DefaultResetValue }

/-- Legacy `IsDefault`. -/
def IsDefault (custom : JpegLSPresetCodingParameters) : Bool :=
  if custom.MaximumSampleValue ≠ 0 then false
  else if custom.Threshold1 ≠ 0 then false
  else if custom.Threshold2 ≠ 0 then false
  else if custom.Threshold3 ≠ 0 then false
  else if custom.ResetValue ≠ 0 then false
  else true

/-- Function `compute_default`: default coding thresholds, ISO/IEC 14495-1, C.2.4.1.1.1. -/
def compute_default (maximum_sample_value near_lossless : Int) : jpegls_pc_parameters :=
  if maximum_sample_value ≥ 128 then
    let factor := Int.tdiv (min maximum_sample_value 4095 + 128) 256
    let threshold1 := clamp (factor * (DefaultThreshold1 - 2) + 2 + 3 * near_lossless)
      (near_lossless + 1) maximum_sample_value
    let threshold2 := clamp (factor * (DefaultThreshold2 - 3) + 3 + 5 * near_lossless)
      threshold1 maximum_sample_value
    { maximum_sample_value := maximum_sample_value
      threshold1 := threshold1
      threshold2 := threshold2
      threshold3 := clamp (factor * (DefaultThreshold3 - 4) + 4 + 7 * near_lossless)
        threshold2 maximum_sample_value
      reset_value := DefaultResetValue }
  else
    let factor := Int.tdiv 256 (maximum_sample_value + 1)
    let threshold1 := clamp (max 2 (Int.tdiv DefaultThreshold1 factor + 3 * near_lossless))
      (near_lossless + 1) maximum_sample_value
    let threshold2 := clamp (max 3 (Int.tdiv DefaultThreshold2 factor + 5 * near_lossless))
      threshold1 maximum_sample_value
    { maximum_sample_value := maximum_sample_value
      threshold1 := threshold1
      threshold2 := threshold2
      threshold3 := clamp (max 4 (Int.tdiv DefaultThreshold3 factor + 7 * near_lossless))
        threshold2 maximum_sample_value
      reset_value := DefaultResetValue }

/-- Function `is_default`. -/
def is_default (preset_coding_parameters : jpegls_pc_parameters) : Bool :=
  if preset_coding_parameters.maximum_sample_value ≠ 0 then false
  else if preset_coding_parameters.threshold1 ≠ 0 then false
  else if preset_coding_parameters.threshold2 ≠ 0 then false
  else if preset_coding_parameters.threshold3 ≠ 0 then false
  else if preset_coding_parameters.reset_value ≠ 0 then false
  else true

/-- Function `is_valid`: ISO/IEC 14495-1, C.2.4.1.1, Table C.1. -/
def is_valid (pc_parameters : jpegls_pc_parameters)
    (maximum_component_value near_lossless : Int) : Bool :=
  if pc_parameters.maximum_sample_value ≠ 0 ∧
      (pc_parameters.maximum_sample_value < 1 ∨
        pc_parameters.maximum_sample_value > maximum_component_value) then false
  else
    let maximum_sample_value :=
      if pc_parameters.maximum_sample_value ≠ 0 then pc_parameters.maximum_sample_value
      else maximum_component_value
    if pc_parameters.threshold1 ≠ 0 ∧
        (pc_parameters.threshold1 < near_lossless + 1 ∨
          pc_parameters.threshold1 > maximum_sample_value) then false
    else
      let default_parameters := compute_default maximum_sample_value near_lossless
      let threshold1 :=
        if pc_parameters.threshold1 ≠ 0 then pc_parameters.threshold1
        else default_parameters.threshold1
      if pc_parameters.threshold2 ≠ 0 ∧
          (pc_parameters.threshold2 < threshold1 ∨
            pc_parameters.threshold2 > maximum_sample_value) then false
      else
        let threshold2 :=
          if pc_parameters.threshold2 ≠ 0 then pc_parameters.threshold2
          else default_parameters.threshold2
        if pc_parameters.threshold3 ≠ 0 ∧
            (pc_parameters.threshold3 < threshold2 ∨
              pc_parameters.threshold3 > maximum_sample_value) then false
        else if pc_parameters.reset_value ≠ 0 ∧
            (pc_parameters.reset_value < 3 ∨
              pc_parameters.reset_value > max 255 maximum_sample_value) then false
        else true

/-! ## `jpegmarkersegment.cpp` -/

/-- The marker codes of `jpegmarkercode.h` that the five factories use. -/
inductive JpegMarkerCode where
  | StartOfFrameJpegLS
  | ApplicationData0
  | JpegLSExtendedParameters
  | ApplicationData8
  | StartOfScan
  deriving DecidableEq

/-- A `JpegMarkerSegment`: the marker code and the content bytes given to its constructor. -/
structure JpegMarkerSegment where
  markerCode : JpegMarkerCode
  content : List Nat
  deriving DecidableEq

/-- The enumerator of `ApiResult` that the source names. -/
inductive ApiResult where
  | InvalidJlsParameters
  deriving DecidableEq

/-- How a call of a factory ends: it returns a value, it throws
`std::system_error` with an `ApiResult`, or its behaviour is undefined
(a read through a null pointer or past the end of a buffer). -/
inductive Outcome (α : Type) where
  | returned (value : α)
  | thrown (error : ApiResult)
  | undefinedBehaviour
  deriving DecidableEq

/-- The value a call returned, if it returned. -/
def Outcome.value? {α : Type} : Outcome α → Option α
  | .returned v => some v
  | .thrown _ => none
  | .undefinedBehaviour => none

/-- The fields of `JfifParameters` read by the source.  `pdataThumbnail` is a
`void*`: `none` is the null pointer, `some buffer` points at `buffer`. -/
structure JfifParameters where
  Ver : Int
  units : Int
  XDensity : Int
  YDensity : Int
  Xthumb : Int
  Ythumb : Int
  pdataThumbnail : Option (List Nat)
  deriving DecidableEq

/-- The structure `JlsCustomParameters`. -/
structure JlsCustomParameters where
  MAXVAL : Int
  T1 : Int
  T2 : Int
  T3 : Int
  RESET : Int
  deriving DecidableEq

/-- The fields of `JlsParameters` read by `CreateStartOfScanMarker`; `ilv` is
the integer value of the interleave-mode enumeration. -/
structure JlsParameters where
  components : Int
  allowedlossyerror : Int
  ilv : Int
  deriving DecidableEq

/-- The byte range `[p, p + count)` read through the pointer `p`: an empty
range reads nothing, a null pointer or a range past the buffer cannot be read. -/
def read_range (p : Option (List Nat)) (count : Int) : Option (List Nat) :=
  if count < 0 then none
  else if count = 0 then some []
  else
    match p with
    | none => none
    | some buffer => if count.toNat ≤ buffer.length then some (buffer.take count.toNat) else none

/-- The four `ASSERT` lines of `CreateStartOfFrameMarker`. -/
def CreateStartOfFrameMarker_pre (width height bitsPerSample componentCount : Int) : Prop :=
  (width ≥ 0 ∧ width ≤ 65535) ∧ (height ≥ 0 ∧ height ≤ 65535) ∧
    (bitsPerSample > 0 ∧ bitsPerSample ≤ 255) ∧ (componentCount > 0 ∧ componentCount ≤ 255 - 1)

/-- Factory `JpegMarkerSegment::CreateStartOfFrameMarker`: the frame header of
T.87, C.2.2 and T.81, B.2.2. -/
def CreateStartOfFrameMarker (width height bitsPerSample componentCount : Int) :
    JpegMarkerSegment :=
  let content : List Nat := []
  let content := content ++ [to_uint8 bitsPerSample]
  let content := push_back content (to_uint16 height)
  let content := push_back content (to_uint16 width)
  let content := content ++ [to_uint8 componentCount]
  let content := (List.range componentCount.toNat).foldl
    (fun (content : List Nat) (component : Nat) =>
      let content := content ++ [to_uint8 ((component : Int) + 1)]
      let content := content ++ [0x11]
      content ++ [0])
    content
  { markerCode := JpegMarkerCode.StartOfFrameJpegLS, content := content }

/-- The five `ASSERT` lines of `CreateJpegFileInterchangeFormatMarker`. -/
def CreateJpegFileInterchangeFormatMarker_pre (params : JfifParameters) : Prop :=
  (params.units = 0 ∨ params.units = 1 ∨ params.units = 2) ∧
    params.XDensity > 0 ∧ params.YDensity > 0 ∧
    (params.Xthumb ≥ 0 ∧ params.Xthumb < 256) ∧ (params.Ythumb ≥ 0 ∧ params.Ythumb < 256)

/-- The array `jfifID` of `CreateJpegFileInterchangeFormatMarker`. -/
def jfifID : List Nat := ['J'.toNat, 'F'.toNat, 'I'.toNat, 'F'.toNat, 0]

/-- Factory `JpegMarkerSegment::CreateJpegFileInterchangeFormatMarker`: the
JPEG APP0 segment of the JPEG File Interchange Format, v1.02. -/
def CreateJpegFileInterchangeFormatMarker (params : JfifParameters) :
    Outcome JpegMarkerSegment :=
  let content : List Nat := []
  let content := (List.range jfifID.length).foldl
    (fun (content : List Nat) (i : Nat) => content ++ [jfifID.getD i 0]) content
  let content := push_back content (to_uint16 params.Ver)
  let content := content ++ [to_uint8 params.units]
  let content := push_back content (to_uint16 params.XDensity)
  let content := push_back content (to_uint16 params.YDensity)
  let content := content ++ [to_uint8 params.Xthumb]
  let content := content ++ [to_uint8 params.Ythumb]
  if params.Xthumb > 0 then
    if params.pdataThumbnail.isSome then
      Outcome.thrown ApiResult.InvalidJlsParameters
    else
      match read_range params.pdataThumbnail (3 * params.Xthumb * params.Ythumb) with
      | none => Outcome.undefinedBehaviour
      | some thumbnail =>
        Outcome.returned
          { markerCode := JpegMarkerCode.ApplicationData0, content := content ++ thumbnail }
  else
    Outcome.returned { markerCode := JpegMarkerCode.ApplicationData0, content := content }

/-- Factory `JpegMarkerSegment::CreateJpegLSExtendedParametersMarker`. -/
def CreateJpegLSExtendedParametersMarker (customParameters : JlsCustomParameters) :
    JpegMarkerSegment :=
  let rgbyte : List Nat := []
  let rgbyte := rgbyte ++ [1]
  let rgbyte := push_back rgbyte (to_uint16 customParameters.MAXVAL)
  let rgbyte := push_back rgbyte (to_uint16 customParameters.T1)
  let rgbyte := push_back rgbyte (to_uint16 customParameters.T2)
  let rgbyte := push_back rgbyte (to_uint16 customParameters.T3)
  let rgbyte := push_back rgbyte (to_uint16 customParameters.RESET)
  { markerCode := JpegMarkerCode.JpegLSExtendedParameters, content := rgbyte }

/-- Factory `JpegMarkerSegment::CreateColorTransformMarker`; `transformation`
is the integer value of the `ColorTransformation` enumeration. -/
def CreateColorTransformMarker (transformation : Int) : JpegMarkerSegment :=
  let rgbyteXform : List Nat := []
  let rgbyteXform := rgbyteXform ++ ['m'.toNat]
  let rgbyteXform := rgbyteXform ++ ['r'.toNat]
  let rgbyteXform := rgbyteXform ++ ['f'.toNat]
  let rgbyteXform := rgbyteXform ++ ['x'.toNat]
  let rgbyteXform := rgbyteXform ++ [to_uint8 transformation]
  { markerCode := JpegMarkerCode.ApplicationData8, content := rgbyteXform }

/-- Factory `JpegMarkerSegment::CreateStartOfScanMarker`. -/
def CreateStartOfScanMarker (params : JlsParameters) (icomponent : Int) : JpegMarkerSegment :=
  let itable : Nat := 0
  let rgbyte : List Nat := []
  let rgbyte :=
    if icomponent < 0 then
      let rgbyte := rgbyte ++ [to_uint8 params.components]
      (List.range params.components.toNat).foldl
        (fun (rgbyte : List Nat) (i : Nat) =>
          let rgbyte := rgbyte ++ [to_uint8 ((i : Int) + 1)]
          rgbyte ++ [itable])
        rgbyte
    else
      let rgbyte := rgbyte ++ [1]
      let rgbyte := rgbyte ++ [to_uint8 icomponent]
      rgbyte ++ [itable]
  let rgbyte := rgbyte ++ [to_uint8 params.allowedlossyerror]
  let rgbyte := rgbyte ++ [to_uint8 params.ilv]
  let rgbyte := rgbyte ++ [0]
  { markerCode := JpegMarkerCode.StartOfScan, content := rgbyte }

/-! ## Reading a marker segment back (the wording of the specification) -/

/-- The big-endian 16-bit value held by the two bytes at `offset`:
`256 * first + second`. -/
def read_uint16_be (content : List Nat) (offset : Nat) : Nat :=
  256 * content.getD offset 0 + content.getD (offset + 1) 0

/-- The identifiers `1, 2, ..., n` in order. -/
def component_ids (n : Nat) : List Nat := (List.range n).map (fun k => k + 1)

/-- The component triplets of a frame header as the specification lists them:
for `i = 1 .. n` in order, `[i, 0x11, 0x00]`. -/
def frame_component_triplets (n : Nat) : List Nat :=
  (component_ids n).flatMap (fun i => [i, 0x11, 0x00])

/-- The component pairs of a scan header as the specification lists them:
for `i = 1 .. n` in order, `[i, 0x00]`. -/
def scan_component_pairs (n : Nat) : List Nat :=
  (component_ids n).flatMap (fun i => [i, 0x00])

/-! ## Debug-build behaviour, effective parameters, evaluation trace -/

/-- The range of `int32_t`. -/
def int32 (x : Int) : Prop := -2147483648 ≤ x ∧ x ≤ 2147483647

instance (x : Int) : Decidable (int32 x) := by
  unfold int32; infer_instance

/-- The `ASSERT` line that opens `is_valid`. -/
def is_valid_pre (maximum_component_value : Int) : Prop :=
  maximum_component_value ≤ 65535

instance (m : Int) : Decidable (is_valid_pre m) := by
  unfold is_valid_pre; infer_instance

/-- Function `compute_default` in a build where `ASSERT` is active: `none` when
one of its two assertions fails, the computed parameters otherwise. -/
def compute_default_checked (maximum_sample_value near_lossless : Int) :
    Option jpegls_pc_parameters :=
  if compute_default_pre maximum_sample_value near_lossless then
    some (compute_default maximum_sample_value near_lossless)
  else none

/-- Legacy `ComputeDefault` in a build where `ASSERT` is active; its two
assertions are those of `compute_default`. -/
def ComputeDefault_checked (maximumSampleValue allowedLossyError : Int) :
    Option JpegLSPresetCodingParameters :=
  if compute_default_pre maximumSampleValue allowedLossyError then
    some (ComputeDefault maximumSampleValue allowedLossyError)
  else none

/-- Function `is_valid` in a build where `ASSERT` is active: `none` when its own
assertion or one of those of the `compute_default` call it makes fails, the
returned boolean otherwise. -/
def is_valid_checked (pc_parameters : jpegls_pc_parameters)
    (maximum_component_value near_lossless : Int) : Option Bool :=
  if ¬ is_valid_pre maximum_component_value then none
  else if pc_parameters.maximum_sample_value ≠ 0 ∧
      (pc_parameters.maximum_sample_value < 1 ∨
        pc_parameters.maximum_sample_value > maximum_component_value) then some false
  else
    let maximum_sample_value :=
      if pc_parameters.maximum_sample_value ≠ 0 then pc_parameters.maximum_sample_value
      else maximum_component_value
    if pc_parameters.threshold1 ≠ 0 ∧
        (pc_parameters.threshold1 < near_lossless + 1 ∨
          pc_parameters.threshold1 > maximum_sample_value) then some false
    else
      match compute_default_checked maximum_sample_value near_lossless with
      | none => none
      | some default_parameters =>
        let threshold1 :=
          if pc_parameters.threshold1 ≠ 0 then pc_parameters.threshold1
          else default_parameters.threshold1
        if pc_parameters.threshold2 ≠ 0 ∧
            (pc_parameters.threshold2 < threshold1 ∨
              pc_parameters.threshold2 > maximum_sample_value) then some false
        else
          let threshold2 :=
            if pc_parameters.threshold2 ≠ 0 then pc_parameters.threshold2
            else default_parameters.threshold2
          if pc_parameters.threshold3 ≠ 0 ∧
              (pc_parameters.threshold3 < threshold2 ∨
                pc_parameters.threshold3 > maximum_sample_value) then some false
          else if pc_parameters.reset_value ≠ 0 ∧
              (pc_parameters.reset_value < 3 ∨
                pc_parameters.reset_value > max 255 maximum_sample_value) then some false
          else some true

/-- The effective `maximum_sample_value` of a candidate, the local
`maximum_sample_value` of `is_valid`: the candidate's own if non-zero, the
maximum component value otherwise. -/
def effective_maximum_sample_value (candidate : jpegls_pc_parameters)
    (maximum_component_value : Int) : Int :=
  if candidate.maximum_sample_value ≠ 0 then candidate.maximum_sample_value
  else maximum_component_value

/-- Modelled from the spec: the effective parameter set of a candidate (the code
that substitutes the defaults when the parameters are used is not among the
sources): each zero field is replaced by the corresponding field of
`compute_default(effective maximum_sample_value, allowed_lossy_error)`.  For
`threshold1` and `threshold2` these are the locals of the same name in `is_valid`. -/
def effective_parameters (candidate : jpegls_pc_parameters)
    (maximum_component_value allowed_lossy_error : Int) : jpegls_pc_parameters :=
  let default_parameters :=
    compute_default (effective_maximum_sample_value candidate maximum_component_value)
      allowed_lossy_error
  { maximum_sample_value := effective_maximum_sample_value candidate maximum_component_value
    threshold1 :=
      if candidate.threshold1 ≠ 0 then candidate.threshold1 else default_parameters.threshold1
    threshold2 :=
      if candidate.threshold2 ≠ 0 then candidate.threshold2 else default_parameters.threshold2
    threshold3 :=
      if candidate.threshold3 ≠ 0 then candidate.threshold3 else default_parameters.threshold3
    reset_value :=
      if candidate.reset_value ≠ 0 then candidate.reset_value
      else default_parameters.reset_value }

/-- The divisors of the `/` operations that `compute_default` evaluates, in order. -/
def compute_default_divisors (maximum_sample_value : Int) : List Int :=
  if maximum_sample_value ≥ 128 then [256]
  else
    let factor := Int.tdiv 256 (maximum_sample_value + 1)
    [maximum_sample_value + 1, factor, factor, factor]

/-- Every value that `compute_default` computes on the way to its result, in
evaluation order: each arithmetic subexpression, each `std::min` / `std::max` and
each `clamp` result.  The two arguments and the literal constants are not listed. -/
def compute_default_intermediates (maximum_sample_value near_lossless : Int) : List Int :=
  if maximum_sample_value ≥ 128 then
    let factor := Int.tdiv (min maximum_sample_value 4095 + 128) 256
    let threshold1 := clamp (factor * (DefaultThreshold1 - 2) + 2 + 3 * near_lossless)
      (near_lossless + 1) maximum_sample_value
    let threshold2 := clamp (factor * (DefaultThreshold2 - 3) + 3 + 5 * near_lossless)
      threshold1 maximum_sample_value
    [min maximum_sample_value 4095, min maximum_sample_value 4095 + 128, factor,
      DefaultThreshold1 - 2, factor * (DefaultThreshold1 - 2),
      factor * (DefaultThreshold1 - 2) + 2, 3 * near_lossless,
      factor * (DefaultThreshold1 - 2) + 2 + 3 * near_lossless, near_lossless + 1, threshold1,
      DefaultThreshold2 - 3, factor * (DefaultThreshold2 - 3),
      factor * (DefaultThreshold2 - 3) + 3, 5 * near_lossless,
      factor * (DefaultThreshold2 - 3) + 3 + 5 * near_lossless, threshold2,
      DefaultThreshold3 - 4, factor * (DefaultThreshold3 - 4),
      factor * (DefaultThreshold3 - 4) + 4, 7 * near_lossless,
      factor * (DefaultThreshold3 - 4) + 4 + 7 * near_lossless,
      clamp (factor * (DefaultThreshold3 - 4) + 4 + 7 * near_lossless)
        threshold2 maximum_sample_value]
  else
    let factor := Int.tdiv 256 (maximum_sample_value + 1)
    let threshold1 := clamp (max 2 (Int.tdiv DefaultThreshold1 factor + 3 * near_lossless))
      (near_lossless + 1) maximum_sample_value
    let threshold2 := clamp (max 3 (Int.tdiv DefaultThreshold2 factor + 5 * near_lossless))
      threshold1 maximum_sample_value
    [maximum_sample_value + 1, factor,
      Int.tdiv DefaultThreshold1 factor, 3 * near_lossless,
      Int.tdiv DefaultThreshold1 factor + 3 * near_lossless,
      max 2 (Int.tdiv DefaultThreshold1 factor + 3 * near_lossless), near_lossless + 1,
      threshold1,
      Int.tdiv DefaultThreshold2 factor, 5 * near_lossless,
      Int.tdiv DefaultThreshold2 factor + 5 * near_lossless,
      max 3 (Int.tdiv DefaultThreshold2 factor + 5 * near_lossless), threshold2,
      Int.tdiv DefaultThreshold3 factor, 7 * near_lossless,
      Int.tdiv DefaultThreshold3 factor + 7 * near_lossless,
      max 4 (Int.tdiv DefaultThreshold3 factor + 7 * near_lossless),
      clamp (max 4 (Int.tdiv DefaultThreshold3 factor + 7 * near_lossless))
        threshold2 maximum_sample_value]

/-! ## Lemmas on the helpers -/

theorem clamp_lower (i j m : Int) : j ≤ clamp i j m := by
  unfold clamp; split <;> omega

theorem clamp_upper (i j m : Int) (h : j ≤ m) : clamp i j m ≤ m := by
  unfold clamp; split <;> omega

theorem near_lossless_succ_le (m n : Int) (hm : 1 ≤ m) (hn : n ≤ MaximumNearLossless m) :
    n + 1 ≤ m := by
  unfold MaximumNearLossless at hn
  rw [Int.tdiv_eq_ediv (by omega) (by omega)] at hn
  omega

theorem to_uint8_of_byte (x : Int) (h : 0 ≤ x ∧ x ≤ 255) : to_uint8 x = x.toNat := by
  unfold to_uint8; omega

theorem to_uint16_of_word (x : Int) (h : 0 ≤ x ∧ x ≤ 65535) : to_uint16 x = x.toNat := by
  unfold to_uint16; omega

theorem to_uint16_lt (x : Int) : to_uint16 x < 65536 := by
  unfold to_uint16; omega

theorem component_ids_succ (n : Nat) : component_ids (n + 1) = component_ids n ++ [n + 1] := by
  simp [component_ids, List.range_succ]

theorem frame_component_triplets_succ (n : Nat) :
    frame_component_triplets (n + 1) = frame_component_triplets n ++ [n + 1, 0x11, 0x00] := by
  simp [frame_component_triplets, component_ids_succ, List.flatMap_append]

theorem scan_component_pairs_succ (n : Nat) :
    scan_component_pairs (n + 1) = scan_component_pairs n ++ [n + 1, 0x00] := by
  simp [scan_component_pairs, component_ids_succ, List.flatMap_append]

theorem frame_component_triplets_length (n : Nat) :
    (frame_component_triplets n).length = 3 * n := by
  induction n with
  | zero => rfl
  | succ n ih => rw [frame_component_triplets_succ, List.length_append, ih]; simp; omega

theorem scan_component_pairs_length (n : Nat) :
    (scan_component_pairs n).length = 2 * n := by
  induction n with
  | zero => rfl
  | succ n ih => rw [scan_component_pairs_succ, List.length_append, ih]; simp; omega

/-! ## `compute_default` and `is_valid` -/

/-- Whenever `near_lossless + 1 ≤ maximum_sample_value`, the three clamps of
`compute_default` give an ascending chain between those two bounds. -/
theorem compute_default_chain (m n : Int) (h : n + 1 ≤ m) :
    n + 1 ≤ (compute_default m n).threshold1 ∧
    (compute_default m n).threshold1 ≤ (compute_default m n).threshold2 ∧
    (compute_default m n).threshold2 ≤ (compute_default m n).threshold3 ∧
    (compute_default m n).threshold3 ≤ m := by
  unfold compute_default
  split
  · simp only
    refine ⟨clamp_lower _ _ _, clamp_lower _ _ _, clamp_lower _ _ _, ?_⟩
    exact clamp_upper _ _ _ (clamp_upper _ _ _ (clamp_upper _ _ _ h))
  · simp only
    refine ⟨clamp_lower _ _ _, clamp_lower _ _ _, clamp_lower _ _ _, ?_⟩
    exact clamp_upper _ _ _ (clamp_upper _ _ _ (clamp_upper _ _ _ h))

theorem compute_default_maximum_sample_value (m n : Int) :
    (compute_default m n).maximum_sample_value = m := by
  unfold compute_default; split <;> rfl

theorem compute_default_reset_value (m n : Int) :
    (compute_default m n).reset_value = 64 := by
  unfold compute_default; split <;> rfl

/-- On a candidate without a zero field `is_valid` is the conjunction of its five
range checks; the defaults it computes on the way are not consulted. -/
theorem is_valid_iff_of_nonzero (p : jpegls_pc_parameters) (mcv n : Int)
    (h0 : p.maximum_sample_value ≠ 0) (h1 : p.threshold1 ≠ 0) (h2 : p.threshold2 ≠ 0)
    (h3 : p.threshold3 ≠ 0) (h4 : p.reset_value ≠ 0) :
    is_valid p mcv n = true ↔
      (1 ≤ p.maximum_sample_value ∧ p.maximum_sample_value ≤ mcv) ∧
      (n < p.threshold1 ∧ p.threshold1 ≤ p.threshold2 ∧ p.threshold2 ≤ p.threshold3 ∧
        p.threshold3 ≤ p.maximum_sample_value) ∧
      (3 ≤ p.reset_value ∧ p.reset_value ≤ max 255 p.maximum_sample_value) := by
  unfold is_valid
  simp only [h0, h1, h2, h3, h4, ne_eq, not_false_eq_true, true_and, if_true]
  constructor
  · intro h
    split at h
    · simp at h
    · split at h
      · simp at h
      · split at h
        · simp at h
        · split at h
          · simp at h
          · split at h
            · simp at h
            · omega
  · intro h
    rw [if_neg (by omega), if_neg (by omega), if_neg (by omega), if_neg (by omega),
      if_neg (by omega)]

/-- Claim C1: for every `maximum_sample_value` in `[1, 65535]` and every
`allowed_lossy_error` in `[0, MaximumNearLossless(maximum_sample_value)]`,
`compute_default` returns parameters with
`allowed_lossy_error < threshold1 <= threshold2 <= threshold3 <= maximum_sample_value`,
with `maximum_sample_value` echoed unchanged and `reset_value = 64`. -/
theorem compute_default_monotone (maximum_sample_value allowed_lossy_error : Int)
    (hm : 1 ≤ maximum_sample_value ∧ maximum_sample_value ≤ 65535)
    (hn : 0 ≤ allowed_lossy_error ∧
      allowed_lossy_error ≤ MaximumNearLossless maximum_sample_value) :
    allowed_lossy_error < (compute_default maximum_sample_value allowed_lossy_error).threshold1 ∧
    (compute_default maximum_sample_value allowed_lossy_error).threshold1 ≤
      (compute_default maximum_sample_value allowed_lossy_error).threshold2 ∧
    (compute_default maximum_sample_value allowed_lossy_error).threshold2 ≤
      (compute_default maximum_sample_value allowed_lossy_error).threshold3 ∧
    (compute_default maximum_sample_value allowed_lossy_error).threshold3 ≤ maximum_sample_value ∧
    (compute_default maximum_sample_value allowed_lossy_error).maximum_sample_value =
      maximum_sample_value ∧
    (compute_default maximum_sample_value allowed_lossy_error).reset_value = 64 := by
  have hc := compute_default_chain maximum_sample_value allowed_lossy_error
    (near_lossless_succ_le _ _ hm.1 hn.2)
  refine ⟨by omega, hc.2.1, hc.2.2.1, hc.2.2.2, compute_default_maximum_sample_value _ _,
    compute_default_reset_value _ _⟩

/-- Witness of C1 at `maximum_sample_value = 2`, `allowed_lossy_error = 1`, where
all three clamps snap to their lower bound. -/
theorem compute_default_monotone_witness :
    (1 : Int) < (compute_default 2 1).threshold1 ∧
    (compute_default 2 1).threshold1 ≤ (compute_default 2 1).threshold2 ∧
    (compute_default 2 1).threshold2 ≤ (compute_default 2 1).threshold3 ∧
    (compute_default 2 1).threshold3 ≤ 2 ∧
    (compute_default 2 1).maximum_sample_value = 2 ∧
    (compute_default 2 1).reset_value = 64 :=
  compute_default_monotone 2 1 (by decide) (by decide)

/-- Claim C2: for every `maximum_sample_value` in `[1, 65535]` and every
`allowed_lossy_error` in `[0, MaximumNearLossless(maximum_sample_value)]`,
`is_valid(compute_default(maximum_sample_value, allowed_lossy_error),
maximum_sample_value, allowed_lossy_error)` returns true. -/
theorem is_valid_compute_default (maximum_sample_value allowed_lossy_error : Int)
    (hm : 1 ≤ maximum_sample_value ∧ maximum_sample_value ≤ 65535)
    (hn : 0 ≤ allowed_lossy_error ∧
      allowed_lossy_error ≤ MaximumNearLossless maximum_sample_value) :
    is_valid (compute_default maximum_sample_value allowed_lossy_error)
      maximum_sample_value allowed_lossy_error = true := by
  have hc := compute_default_chain maximum_sample_value allowed_lossy_error
    (near_lossless_succ_le _ _ hm.1 hn.2)
  have hmsv := compute_default_maximum_sample_value maximum_sample_value allowed_lossy_error
  have hreset := compute_default_reset_value maximum_sample_value allowed_lossy_error
  rw [is_valid_iff_of_nonzero _ _ _ (by omega) (by omega) (by omega) (by omega) (by omega)]
  omega

/-- Witness of C2 at the 12-bit depth with `allowed_lossy_error = 7`. -/
theorem is_valid_compute_default_witness :
    is_valid (compute_default 4095 7) 4095 7 = true :=
  is_valid_compute_default 4095 7 (by decide) (by decide)

/-! ## Marker segments -/

/-- The component loop of `CreateStartOfFrameMarker` appends the triplets of the
components `1 .. n` (no identifier wraps while `n ≤ 255`). -/
theorem frame_loop (n : Nat) (hn : n ≤ 255) (content : List Nat) :
    (List.range n).foldl
      (fun (content : List Nat) (component : Nat) =>
        content ++ [to_uint8 ((component : Int) + 1), 0x11, 0])
      content = content ++ frame_component_triplets n := by
  induction n with
  | zero => simp [frame_component_triplets, component_ids]
  | succ n ih =>
    rw [List.range_succ, List.foldl_append, ih (by omega), frame_component_triplets_succ]
    have : to_uint8 ((n : Int) + 1) = n + 1 := by unfold to_uint8; omega
    simp [this]

/-- The component loop of `CreateStartOfScanMarker` appends the pairs of the
components `1 .. n` (no identifier wraps while `n ≤ 255`). -/
theorem scan_loop (n : Nat) (hn : n ≤ 255) (itable : Nat) (rgbyte : List Nat) :
    (List.range n).foldl
      (fun (rgbyte : List Nat) (i : Nat) => rgbyte ++ [to_uint8 ((i : Int) + 1), itable])
      rgbyte = rgbyte ++ (component_ids n).flatMap (fun i => [i, itable]) := by
  induction n with
  | zero => simp [component_ids]
  | succ n ih =>
    rw [List.range_succ, List.foldl_append, ih (by omega), component_ids_succ,
      List.flatMap_append]
    have : to_uint8 ((n : Int) + 1) = n + 1 := by unfold to_uint8; omega
    simp [this]

/-- Claim C4: for every `width` and `height` in `[0, 65535]`, `bits_per_sample` in
`[1, 255]` and `component_count` in `[1, 254]`, `CreateStartOfFrameMarker` returns a
segment tagged start-of-frame (JPEG-LS) whose content has length
`6 + 3 * component_count` and equals `[bits_per_sample, height / 256, height % 256,
width / 256, width % 256, component_count]` followed, for `i = 1 .. component_count`
in order, by the triplet `[i, 0x11, 0x00]`; in particular `(4, 4, 8, 3)` gives the 15
bytes `08 00 04 00 04 03 01 11 00 02 11 00 03 11 00`. -/
theorem CreateStartOfFrameMarker_layout (width height bitsPerSample componentCount : Int)
    (hw : 0 ≤ width ∧ width ≤ 65535) (hh : 0 ≤ height ∧ height ≤ 65535)
    (hb : 1 ≤ bitsPerSample ∧ bitsPerSample ≤ 255)
    (hc : 1 ≤ componentCount ∧ componentCount ≤ 254) :
    (CreateStartOfFrameMarker width height bitsPerSample componentCount).markerCode =
      JpegMarkerCode.StartOfFrameJpegLS ∧
    (CreateStartOfFrameMarker width height bitsPerSample componentCount).content.length =
      6 + 3 * componentCount.toNat ∧
    (CreateStartOfFrameMarker width height bitsPerSample componentCount).content =
      [bitsPerSample.toNat, (height / 256).toNat, (height % 256).toNat,
        (width / 256).toNat, (width % 256).toNat, componentCount.toNat] ++
        frame_component_triplets componentCount.toNat ∧
    (CreateStartOfFrameMarker 4 4 8 3).content =
      [0x08, 0x00, 0x04, 0x00, 0x04, 0x03, 0x01, 0x11, 0x00, 0x02, 0x11, 0x00,
        0x03, 0x11, 0x00] := by
  have hcontent :
      (CreateStartOfFrameMarker width height bitsPerSample componentCount).content =
      [bitsPerSample.toNat, (height / 256).toNat, (height % 256).toNat,
        (width / 256).toNat, (width % 256).toNat, componentCount.toNat] ++
        frame_component_triplets componentCount.toNat := by
    unfold CreateStartOfFrameMarker
    simp only [push_back,
      to_uint8_of_byte bitsPerSample (by omega), to_uint8_of_byte componentCount (by omega),
      to_uint16_of_word height hh, to_uint16_of_word width hw, List.nil_append,
      List.append_assoc, List.singleton_append, List.cons_append]
    have h1 : height.toNat / 256 = (height / 256).toNat := by omega
    have h2 : height.toNat % 256 = (height % 256).toNat := by omega
    have h3 : width.toNat / 256 = (width / 256).toNat := by omega
    have h4 : width.toNat % 256 = (width % 256).toNat := by omega
    rw [h1, h2, h3, h4, frame_loop componentCount.toNat (by omega)]
    simp
  refine ⟨rfl, ?_, hcontent, by decide⟩
  rw [hcontent, List.length_append, frame_component_triplets_length]
  simp

/-- Witness of C4 at a 640 x 480 frame of two 12-bit components. -/
theorem CreateStartOfFrameMarker_layout_witness :
    (CreateStartOfFrameMarker 640 480 12 2).content =
      [12, 1, 224, 2, 128, 2, 1, 0x11, 0, 2, 0x11, 0] :=
  (CreateStartOfFrameMarker_layout 640 480 12 2 (by decide) (by decide) (by decide)
    (by decide)).2.2.1

/-- The eleven content bytes of the LSE segment, before any range assumption. -/
theorem CreateJpegLSExtendedParametersMarker_content (c : JlsCustomParameters) :
    (CreateJpegLSExtendedParametersMarker c).content =
      [1, to_uint16 c.MAXVAL / 256, to_uint16 c.MAXVAL % 256,
        to_uint16 c.T1 / 256, to_uint16 c.T1 % 256,
        to_uint16 c.T2 / 256, to_uint16 c.T2 % 256,
        to_uint16 c.T3 / 256, to_uint16 c.T3 % 256,
        to_uint16 c.RESET / 256, to_uint16 c.RESET % 256] := by
  simp [CreateJpegLSExtendedParametersMarker, push_back]

/-- Claim C5: for every custom parameter set whose `MAXVAL`, `T1`, `T2`, `T3` and
`RESET` all lie in `[0, 65535]`, `CreateJpegLSExtendedParametersMarker` returns a
segment tagged LSE whose content is exactly 11 bytes, the first being `0x01`, and
reading the following five byte pairs as big-endian 16-bit values
(`256 * first + second`) recovers `MAXVAL`, `T1`, `T2`, `T3`, `RESET` in that order. -/
theorem CreateJpegLSExtendedParametersMarker_layout (customParameters : JlsCustomParameters)
    (hMAXVAL : 0 ≤ customParameters.MAXVAL ∧ customParameters.MAXVAL ≤ 65535)
    (hT1 : 0 ≤ customParameters.T1 ∧ customParameters.T1 ≤ 65535)
    (hT2 : 0 ≤ customParameters.T2 ∧ customParameters.T2 ≤ 65535)
    (hT3 : 0 ≤ customParameters.T3 ∧ customParameters.T3 ≤ 65535)
    (hRESET : 0 ≤ customParameters.RESET ∧ customParameters.RESET ≤ 65535) :
    (CreateJpegLSExtendedParametersMarker customParameters).markerCode =
      JpegMarkerCode.JpegLSExtendedParameters ∧
    (CreateJpegLSExtendedParametersMarker customParameters).content.length = 11 ∧
    (∀ b ∈ (CreateJpegLSExtendedParametersMarker customParameters).content, b < 256) ∧
    (CreateJpegLSExtendedParametersMarker customParameters).content.getD 0 0 = 0x01 ∧
    (read_uint16_be (CreateJpegLSExtendedParametersMarker customParameters).content 1 : Int) =
      customParameters.MAXVAL ∧
    (read_uint16_be (CreateJpegLSExtendedParametersMarker customParameters).content 3 : Int) =
      customParameters.T1 ∧
    (read_uint16_be (CreateJpegLSExtendedParametersMarker customParameters).content 5 : Int) =
      customParameters.T2 ∧
    (read_uint16_be (CreateJpegLSExtendedParametersMarker customParameters).content 7 : Int) =
      customParameters.T3 ∧
    (read_uint16_be (CreateJpegLSExtendedParametersMarker customParameters).content 9 : Int) =
      customParameters.RESET := by
  rw [CreateJpegLSExtendedParametersMarker_content]
  have l1 := to_uint16_lt customParameters.MAXVAL
  have l2 := to_uint16_lt customParameters.T1
  have l3 := to_uint16_lt customParameters.T2
  have l4 := to_uint16_lt customParameters.T3
  have l5 := to_uint16_lt customParameters.RESET
  have e1 := to_uint16_of_word _ hMAXVAL
  have e2 := to_uint16_of_word _ hT1
  have e3 := to_uint16_of_word _ hT2
  have e4 := to_uint16_of_word _ hT3
  have e5 := to_uint16_of_word _ hRESET
  refine ⟨rfl, rfl, ?_, rfl, ?_, ?_, ?_, ?_, ?_⟩
  · intro b hb
    simp only [List.mem_cons, List.mem_singleton, List.not_mem_nil, or_false] at hb
    omega
  all_goals
    simp only [read_uint16_be, List.getD_cons_succ, List.getD_cons_zero]
    omega

/-- Witness of C5 at the 16-bit lossless defaults `(65535, 18, 67, 276, 64)`. -/
theorem CreateJpegLSExtendedParametersMarker_layout_witness :
    (CreateJpegLSExtendedParametersMarker ⟨65535, 18, 67, 276, 64⟩).content.length = 11 ∧
    (read_uint16_be (CreateJpegLSExtendedParametersMarker ⟨65535, 18, 67, 276, 64⟩).content 1
      : Int) = 65535 ∧
    (read_uint16_be (CreateJpegLSExtendedParametersMarker ⟨65535, 18, 67, 276, 64⟩).content 7
      : Int) = 276 :=
  have h := CreateJpegLSExtendedParametersMarker_layout ⟨65535, 18, 67, 276, 64⟩ (by decide)
    (by decide) (by decide) (by decide) (by decide)
  ⟨h.2.1, h.2.2.2.2.1, h.2.2.2.2.2.2.2.1⟩

/-- Claim C6: for every scan parameter set with `components` in `[0, 255]`,
`allowedlossyerror` in `[0, 255]` and `ilv` in `[0, 255]`: if `component_index < 0`,
the content of `CreateStartOfScanMarker` is `[components]` followed by the pairs
`[i, 0x00]` for `i = 1 .. components` in order, then `[allowedlossyerror, ilv, 0x00]`
(length `4 + 2 * components`); if `0 <= component_index <= 255`, the content is
exactly the six bytes `[0x01, component_index, 0x00, allowedlossyerror, ilv, 0x00]`.
In both cases the first byte equals the number of (id, selector) pairs that follow
it: the length is one count byte, twice the first byte, and three trailing bytes. -/
theorem CreateStartOfScanMarker_layout (params : JlsParameters) (icomponent : Int)
    (hc : 0 ≤ params.components ∧ params.components ≤ 255)
    (ha : 0 ≤ params.allowedlossyerror ∧ params.allowedlossyerror ≤ 255)
    (hi : 0 ≤ params.ilv ∧ params.ilv ≤ 255) :
    (icomponent < 0 →
      (CreateStartOfScanMarker params icomponent).content =
        [params.components.toNat] ++ scan_component_pairs params.components.toNat ++
          [params.allowedlossyerror.toNat, params.ilv.toNat, 0x00] ∧
      (CreateStartOfScanMarker params icomponent).content.length =
        4 + 2 * params.components.toNat) ∧
    (0 ≤ icomponent ∧ icomponent ≤ 255 →
      (CreateStartOfScanMarker params icomponent).content =
        [0x01, icomponent.toNat, 0x00, params.allowedlossyerror.toNat, params.ilv.toNat, 0x00]) ∧
    (icomponent ≤ 255 →
      (CreateStartOfScanMarker params icomponent).content.length =
        1 + 2 * (CreateStartOfScanMarker params icomponent).content.getD 0 0 + 3) := by
  have hneg : icomponent < 0 →
      (CreateStartOfScanMarker params icomponent).content =
        [params.components.toNat] ++ scan_component_pairs params.components.toNat ++
          [params.allowedlossyerror.toNat, params.ilv.toNat, 0x00] := by
    intro h
    unfold CreateStartOfScanMarker
    simp only [h, if_true, to_uint8_of_byte _ hc, to_uint8_of_byte _ ha, to_uint8_of_byte _ hi,
      List.nil_append, List.append_assoc, List.singleton_append, List.cons_append]
    rw [scan_loop params.components.toNat (by omega)]
    simp [scan_component_pairs]
  have hpos : 0 ≤ icomponent ∧ icomponent ≤ 255 →
      (CreateStartOfScanMarker params icomponent).content =
        [0x01, icomponent.toNat, 0x00, params.allowedlossyerror.toNat, params.ilv.toNat, 0x00] := by
    intro h
    unfold CreateStartOfScanMarker
    simp [show ¬ icomponent < 0 by omega, to_uint8_of_byte _ h, to_uint8_of_byte _ ha,
      to_uint8_of_byte _ hi]
  refine ⟨fun h => ⟨hneg h, ?_⟩, hpos, fun h => ?_⟩
  · rw [hneg h]
    simp [scan_component_pairs_length]
    omega
  · by_cases h0 : icomponent < 0
    · rw [hneg h0]
      simp [scan_component_pairs_length]
      omega
    · rw [hpos ⟨by omega, h⟩]
      rfl

/-- Witness of C6: a three-component scan with `allowedlossyerror = 2`, `ilv = 1`,
once for all components and once for the single component 2. -/
theorem CreateStartOfScanMarker_layout_witness :
    (CreateStartOfScanMarker ⟨3, 2, 1⟩ (-1)).content = [3, 1, 0, 2, 0, 3, 0, 2, 1, 0] ∧
    (CreateStartOfScanMarker ⟨3, 2, 1⟩ 2).content = [1, 2, 0, 2, 1, 0] :=
  have h := CreateStartOfScanMarker_layout ⟨3, 2, 1⟩
  ⟨((h (-1) (by decide) (by decide) (by decide)).1 (by decide)).1,
    (h 2 (by decide) (by decide) (by decide)).2.1 (by decide)⟩

/-- The identifier loop of `CreateJpegFileInterchangeFormatMarker` copies `jfifID`. -/
theorem jfif_identifier_loop :
    (List.range jfifID.length).foldl
      (fun (content : List Nat) (i : Nat) => content ++ [jfifID.getD i 0]) [] = jfifID := by
  decide

/-- Claim C7: for every JFIF parameter set satisfying the preconditions (`units` in
`{0,1,2}`, densities in `[1, 65535]`, version in `[0, 65535]`, `Ythumb` in
`[0, 255]`) with thumbnail width `Xthumb = 0`, whether or not a thumbnail buffer is
supplied, `CreateJpegFileInterchangeFormatMarker` succeeds and returns a segment
tagged APP0 whose content is exactly the 14 bytes `'J','F','I','F',0x00`, version
big-endian, units, `XDensity` big-endian, `YDensity` big-endian, `Xthumb` (= 0),
`Ythumb`. -/
theorem CreateJpegFileInterchangeFormatMarker_no_thumbnail (params : JfifParameters)
    (hunits : params.units = 0 ∨ params.units = 1 ∨ params.units = 2)
    (hXDensity : 1 ≤ params.XDensity ∧ params.XDensity ≤ 65535)
    (hYDensity : 1 ≤ params.YDensity ∧ params.YDensity ≤ 65535)
    (hVer : 0 ≤ params.Ver ∧ params.Ver ≤ 65535)
    (hYthumb : 0 ≤ params.Ythumb ∧ params.Ythumb ≤ 255)
    (hXthumb : params.Xthumb = 0) :
    CreateJpegFileInterchangeFormatMarker params =
      Outcome.returned
        { markerCode := JpegMarkerCode.ApplicationData0
          content :=
            ['J'.toNat, 'F'.toNat, 'I'.toNat, 'F'.toNat, 0x00,
              (params.Ver / 256).toNat, (params.Ver % 256).toNat,
              params.units.toNat,
              (params.XDensity / 256).toNat, (params.XDensity % 256).toNat,
              (params.YDensity / 256).toNat, (params.YDensity % 256).toNat,
              0, params.Ythumb.toNat] } := by
  unfold CreateJpegFileInterchangeFormatMarker
  simp only [jfif_identifier_loop, hXthumb, gt_iff_lt, lt_self_iff_false, if_false, push_back,
    to_uint16_of_word _ hVer, to_uint16_of_word params.XDensity (by omega),
    to_uint16_of_word params.YDensity (by omega), to_uint8_of_byte params.units (by omega),
    to_uint8_of_byte _ hYthumb, jfifID, List.append_assoc, List.singleton_append,
    List.cons_append, List.nil_append]
  have h1 : params.Ver.toNat / 256 = (params.Ver / 256).toNat := by omega
  have h2 : params.Ver.toNat % 256 = (params.Ver % 256).toNat := by omega
  have h3 : params.XDensity.toNat / 256 = (params.XDensity / 256).toNat := by omega
  have h4 : params.XDensity.toNat % 256 = (params.XDensity % 256).toNat := by omega
  have h5 : params.YDensity.toNat / 256 = (params.YDensity / 256).toNat := by omega
  have h6 : params.YDensity.toNat % 256 = (params.YDensity % 256).toNat := by omega
  rw [h1, h2, h3, h4, h5, h6]
  rfl

/-- Witness of C7: version 1.02, 72 x 72 dots per inch, no thumbnail, with a
buffer supplied all the same. -/
theorem CreateJpegFileInterchangeFormatMarker_no_thumbnail_witness :
    CreateJpegFileInterchangeFormatMarker ⟨0x0102, 1, 72, 72, 0, 0, some [1, 2, 3]⟩ =
      Outcome.returned ⟨JpegMarkerCode.ApplicationData0,
        [0x4A, 0x46, 0x49, 0x46, 0x00, 0x01, 0x02, 0x01, 0x00, 0x48, 0x00, 0x48, 0x00, 0x00]⟩ :=
  CreateJpegFileInterchangeFormatMarker_no_thumbnail ⟨0x0102, 1, 72, 72, 0, 0, some [1, 2, 3]⟩
    (by decide) (by decide) (by decide) (by decide) (by decide) rfl

/-- Claim C8, evaluated on the source: C8 says that with a thumbnail width in
`[1, 255]` and a supplied buffer of `3 * Xthumb * Ythumb` bytes the factory returns
the 14-byte header followed by the buffer.  On the 1 x 1 thumbnail `[10, 20, 30]`
(all preconditions holding) the source throws `InvalidJlsParameters` and returns
no segment. -/
theorem CreateJpegFileInterchangeFormatMarker_thumbnail_rejected :
    CreateJpegFileInterchangeFormatMarker_pre ⟨0x0102, 1, 72, 72, 1, 1, some [10, 20, 30]⟩ ∧
    CreateJpegFileInterchangeFormatMarker ⟨0x0102, 1, 72, 72, 1, 1, some [10, 20, 30]⟩ =
      Outcome.thrown ApiResult.InvalidJlsParameters ∧
    (CreateJpegFileInterchangeFormatMarker
      ⟨0x0102, 1, 72, 72, 1, 1, some [10, 20, 30]⟩).value? = none := by
  refine ⟨?_, by decide, by decide⟩
  unfold CreateJpegFileInterchangeFormatMarker_pre
  decide

/-- Claim C9: `CreateJpegFileInterchangeFormatMarker` fails with the
`InvalidJlsParameters` error if and only if the thumbnail width `Xthumb` is `> 0`
and a thumbnail buffer is supplied (non-null); for every other input it throws no
error, and when it fails no segment is returned. -/
theorem CreateJpegFileInterchangeFormatMarker_throws_iff (params : JfifParameters) :
    (CreateJpegFileInterchangeFormatMarker params =
        Outcome.thrown ApiResult.InvalidJlsParameters ↔
      (params.Xthumb > 0 ∧ params.pdataThumbnail ≠ none)) ∧
    (¬ (params.Xthumb > 0 ∧ params.pdataThumbnail ≠ none) →
      ∀ e : ApiResult, CreateJpegFileInterchangeFormatMarker params ≠ Outcome.thrown e) ∧
    ((∃ e : ApiResult, CreateJpegFileInterchangeFormatMarker params = Outcome.thrown e) →
      (CreateJpegFileInterchangeFormatMarker params).value? = none) := by
  have key : ∀ e : ApiResult, CreateJpegFileInterchangeFormatMarker params = Outcome.thrown e →
      (params.Xthumb > 0 ∧ params.pdataThumbnail ≠ none) := by
    intro e h
    unfold CreateJpegFileInterchangeFormatMarker at h
    simp only at h
    split at h
    · rename_i hx
      split at h
      · rename_i hp
        refine ⟨hx, ?_⟩
        intro hn
        rw [hn] at hp
        simp at hp
      · split at h <;> simp at h
    · simp at h
  refine ⟨⟨key _, ?_⟩, fun hn e he => hn (key e he), ?_⟩
  · rintro ⟨hx, hp⟩
    unfold CreateJpegFileInterchangeFormatMarker
    have : params.pdataThumbnail.isSome = true := by
      cases hq : params.pdataThumbnail with
      | none => exact absurd hq hp
      | some b => rfl
    simp [hx, this]
  · rintro ⟨e, he⟩
    rw [he]
    rfl

/-- Witness of C9: a 2 x 1 thumbnail with its six bytes supplied is refused; a
positive width with no buffer and `Ythumb = 0` throws nothing. -/
theorem CreateJpegFileInterchangeFormatMarker_throws_iff_witness :
    CreateJpegFileInterchangeFormatMarker ⟨0x0102, 1, 72, 72, 2, 1, some [1, 2, 3, 4, 5, 6]⟩ =
      Outcome.thrown ApiResult.InvalidJlsParameters ∧
    (∀ e : ApiResult,
      CreateJpegFileInterchangeFormatMarker ⟨0x0102, 1, 72, 72, 2, 0, none⟩ ≠ Outcome.thrown e) :=
  ⟨(CreateJpegFileInterchangeFormatMarker_throws_iff
      ⟨0x0102, 1, 72, 72, 2, 1, some [1, 2, 3, 4, 5, 6]⟩).1.mpr ⟨by decide, by decide⟩,
    (CreateJpegFileInterchangeFormatMarker_throws_iff ⟨0x0102, 1, 72, 72, 2, 0, none⟩).2.1
      (by decide)⟩

/-- With a positive thumbnail width and no buffer the source reads
`3 * Xthumb * Ythumb` bytes through the null pointer: the call returns the bare
header when that count is zero and has undefined behaviour otherwise. -/
theorem CreateJpegFileInterchangeFormatMarker_null_buffer (params : JfifParameters)
    (hx : 0 < params.Xthumb) (hp : params.pdataThumbnail = none) :
    (params.Ythumb = 0 → (CreateJpegFileInterchangeFormatMarker params).value?.isSome = true) ∧
    (0 < params.Ythumb →
      CreateJpegFileInterchangeFormatMarker params = Outcome.undefinedBehaviour) := by
  constructor
  · intro h0
    unfold CreateJpegFileInterchangeFormatMarker
    simp [hx, hp, h0, read_range, Outcome.value?]
  · intro hpos
    have h3 : 0 < 3 * params.Xthumb * params.Ythumb := by positivity
    unfold CreateJpegFileInterchangeFormatMarker
    simp [hx, hp, read_range, show ¬ (3 * params.Xthumb * params.Ythumb < 0) by omega,
      show ¬ (3 * params.Xthumb * params.Ythumb = 0) by omega]

/-- Claim C10: for every transformation identifier in `[0, 255]`,
`CreateColorTransformMarker` returns a segment tagged APP8 whose content is exactly
5 bytes: `0x6D, 0x72, 0x66, 0x78` (ASCII "mrfx") followed by one byte equal to the
transformation identifier. -/
theorem CreateColorTransformMarker_layout (transformation : Int)
    (h : 0 ≤ transformation ∧ transformation ≤ 255) :
    (CreateColorTransformMarker transformation).markerCode = JpegMarkerCode.ApplicationData8 ∧
    (CreateColorTransformMarker transformation).content.length = 5 ∧
    (CreateColorTransformMarker transformation).content =
      [0x6D, 0x72, 0x66, 0x78, transformation.toNat] := by
  refine ⟨rfl, rfl, ?_⟩
  simp [CreateColorTransformMarker, to_uint8_of_byte _ h]

/-- Witness of C10 at the transformation identifier 2. -/
theorem CreateColorTransformMarker_layout_witness :
    (CreateColorTransformMarker 2).content = [0x6D, 0x72, 0x66, 0x78, 2] :=
  (CreateColorTransformMarker_layout 2 (by decide)).2.2

/-! ## Literal cases and sentinels -/

/-- Claim C11: `compute_default(255, 0)` equals `{maximum_sample_value = 255,
threshold1 = 3, threshold2 = 7, threshold3 = 21, reset_value = 64}`, with the
standard constants `DefaultThreshold1 = 3`, `DefaultThreshold2 = 7`,
`DefaultThreshold3 = 21`, `DefaultResetValue = 64`: at 8 bits the factor is 1 and
no clamp alters a value, so the result is the four constants themselves. -/
theorem compute_default_8bit_lossless :
    compute_default 255 0 =
      { maximum_sample_value := 255, threshold1 := 3, threshold2 := 7, threshold3 := 21,
        reset_value := 64 } ∧
    compute_default 255 0 =
      { maximum_sample_value := 255, threshold1 := DefaultThreshold1,
        threshold2 := DefaultThreshold2, threshold3 := DefaultThreshold3,
        reset_value := DefaultResetValue } := by
  constructor <;> decide

/-- The five early returns of `is_default` leave `true` exactly for the all-zero set. -/
theorem is_default_iff_zero (p : jpegls_pc_parameters) :
    is_default p = true ↔
      p.maximum_sample_value = 0 ∧ p.threshold1 = 0 ∧ p.threshold2 = 0 ∧
        p.threshold3 = 0 ∧ p.reset_value = 0 := by
  unfold is_default
  constructor
  · intro h
    split at h
    · simp at h
    · split at h
      · simp at h
      · split at h
        · simp at h
        · split at h
          · simp at h
          · split at h
            · simp at h
            · simp_all
  · rintro ⟨h0, h1, h2, h3, h4⟩
    simp [h0, h1, h2, h3, h4]

/-- Claim C12: for every parameter set `p`, `is_default(p)` returns true if and
only if `maximum_sample_value`, `threshold1`, `threshold2`, `threshold3` and
`reset_value` of `p` are all exactly zero. -/
theorem is_default_iff (p : jpegls_pc_parameters) :
    is_default p = true ↔
      p.maximum_sample_value = 0 ∧ p.threshold1 = 0 ∧ p.threshold2 = 0 ∧
        p.threshold3 = 0 ∧ p.reset_value = 0 :=
  is_default_iff_zero p

/-- Claim C13: for all 32-bit integers `i`, `j`, `m`: `clamp(i, j, m)` returns `j`
whenever `i > m` or `i < j`, and returns `i` otherwise; in particular a value above
`m` snaps to `j`, not to `m`: `clamp(300, 5, 255) = 5`, `clamp(3, 5, 255) = 5`,
`clamp(100, 5, 255) = 100`. -/
theorem clamp_asymmetric (i j m : Int) (_hi : int32 i) (_hj : int32 j) (_hm : int32 m) :
    ((i > m ∨ i < j) → clamp i j m = j) ∧
    (¬ (i > m ∨ i < j) → clamp i j m = i) ∧
    clamp 300 5 255 = 5 ∧ clamp 3 5 255 = 5 ∧ clamp 100 5 255 = 100 := by
  refine ⟨fun h => ?_, fun h => ?_, by decide, by decide, by decide⟩
  · unfold clamp; rw [if_pos h]
  · unfold clamp; rw [if_neg h]

/-- Witness of C13 at `i = 70000`, `j = 9`, `m = 65535`: above `m`, so the
result is `j`. -/
theorem clamp_asymmetric_witness : clamp 70000 9 65535 = 9 :=
  (clamp_asymmetric 70000 9 65535 (by unfold int32; decide) (by unfold int32; decide)
    (by unfold int32; decide)).1 (by decide)

/-- Claim C14: for every `maximum_component_value` in `[1, 65535]`, every
`allowed_lossy_error` in `[0, MaximumNearLossless(maximum_component_value)]` and
every candidate with `maximum_sample_value = 0`, `threshold1 = 0` and a non-zero
`threshold2` smaller than the `threshold1` of
`compute_default(maximum_component_value, allowed_lossy_error)`, `is_valid` returns
false whatever the other fields are; in particular for
`maximum_component_value = 255`, `allowed_lossy_error = 0`, `threshold1 = 0`,
`threshold2 = 2` it returns false because `2 < 3`. -/
theorem is_valid_rejects_threshold2_below_default (candidate : jpegls_pc_parameters)
    (maximum_component_value allowed_lossy_error : Int)
    (_hm : 1 ≤ maximum_component_value ∧ maximum_component_value ≤ 65535)
    (_hn : 0 ≤ allowed_lossy_error ∧
      allowed_lossy_error ≤ MaximumNearLossless maximum_component_value)
    (h_maximum_sample_value : candidate.maximum_sample_value = 0)
    (h_threshold1 : candidate.threshold1 = 0)
    (h_threshold2 : candidate.threshold2 ≠ 0)
    (h_below : candidate.threshold2 <
      (compute_default maximum_component_value allowed_lossy_error).threshold1) :
    is_valid candidate maximum_component_value allowed_lossy_error = false ∧
    (compute_default 255 0).threshold1 = 3 ∧
    (∀ threshold3 reset_value : Int,
      is_valid { maximum_sample_value := 0, threshold1 := 0, threshold2 := 2,
                 threshold3 := threshold3, reset_value := reset_value } 255 0 = false) := by
  have general : ∀ (c : jpegls_pc_parameters) (mcv n : Int),
      c.maximum_sample_value = 0 → c.threshold1 = 0 → c.threshold2 ≠ 0 →
      c.threshold2 < (compute_default mcv n).threshold1 → is_valid c mcv n = false := by
    intro c mcv n h0 h1 h2 hb
    unfold is_valid
    simp only [h0, h1, ne_eq, not_true_eq_false, false_and, if_false]
    rw [if_pos ⟨h2, Or.inl hb⟩]
  refine ⟨general _ _ _ h_maximum_sample_value h_threshold1 h_threshold2 h_below, by decide, ?_⟩
  intro threshold3 reset_value
  refine general _ 255 0 rfl rfl ?_ ?_
  · show (2 : Int) ≠ 0
    decide
  · show (2 : Int) < (compute_default 255 0).threshold1
    decide

/-- Witness of C14 at a 12-bit component with `allowed_lossy_error = 2`: the
`threshold1` of the defaults is 24 and the candidate has `threshold2 = 23`. -/
theorem is_valid_rejects_threshold2_below_default_witness :
    is_valid ⟨0, 0, 23, 300, 64⟩ 4095 2 = false :=
  (is_valid_rejects_threshold2_below_default ⟨0, 0, 23, 300, 64⟩ 4095 2 (by decide) (by decide)
    rfl rfl (by decide) (by decide)).1

/-- Claim C18: for every `maximum_component_value` in `[1, 65535]` and every
`allowed_lossy_error` in `[0, MaximumNearLossless(maximum_component_value)]`, every
parameter set `p` with `is_default(p) = true` (all five fields zero) is accepted:
`is_valid(p, maximum_component_value, allowed_lossy_error) = true`. -/
theorem is_valid_of_is_default (p : jpegls_pc_parameters)
    (maximum_component_value allowed_lossy_error : Int)
    (_hm : 1 ≤ maximum_component_value ∧ maximum_component_value ≤ 65535)
    (_hn : 0 ≤ allowed_lossy_error ∧
      allowed_lossy_error ≤ MaximumNearLossless maximum_component_value)
    (hp : is_default p = true) :
    is_valid p maximum_component_value allowed_lossy_error = true := by
  obtain ⟨h0, h1, h2, h3, h4⟩ := (is_default_iff_zero p).mp hp
  unfold is_valid
  simp [h0, h1, h2, h3, h4]

/-- Witness of C18 at a 16-bit component with the largest lossy error. -/
theorem is_valid_of_is_default_witness : is_valid ⟨0, 0, 0, 0, 0⟩ 65535 255 = true :=
  is_valid_of_is_default ⟨0, 0, 0, 0, 0⟩ 65535 255 (by decide) (by decide) rfl


/-! ## Saturation, effective parameters and the assertions -/

/-- From 12 bits upwards the factor of `compute_default` is 16. -/
theorem compute_default_factor_saturated (m : Int) (hm : 4095 ≤ m) :
    Int.tdiv (min m 4095 + 128) 256 = 16 := by
  rw [min_eq_right hm]
  decide

/-- From 12 bits upwards, and for a lossy error of at most 255, no clamp of
`compute_default` alters its first argument. -/
theorem compute_default_saturated (m n : Int) (hm : 4095 ≤ m) (hn : 0 ≤ n ∧ n ≤ 255) :
    (compute_default m n).threshold1 = 18 + 3 * n ∧
    (compute_default m n).threshold2 = 67 + 5 * n ∧
    (compute_default m n).threshold3 = 276 + 7 * n := by
  unfold compute_default
  rw [if_pos (by omega)]
  simp only [compute_default_factor_saturated m hm, DefaultThreshold1, DefaultThreshold2,
    DefaultThreshold3]
  have h1 : clamp (16 * (3 - 2) + 2 + 3 * n) (n + 1) m = 18 + 3 * n := by
    unfold clamp; rw [if_neg (by omega)]; omega
  have h2 : clamp (16 * (7 - 3) + 3 + 5 * n) (18 + 3 * n) m = 67 + 5 * n := by
    unfold clamp; rw [if_neg (by omega)]; omega
  have h3 : clamp (16 * (21 - 4) + 4 + 7 * n) (67 + 5 * n) m = 276 + 7 * n := by
    unfold clamp; rw [if_neg (by omega)]; omega
  rw [h1, h2, h3]
  exact ⟨rfl, rfl, rfl⟩

/-- Claim C19: the default thresholds saturate at 12-bit depth: for all
`maximum_sample_value` `m` and `m'` in `[4095, 65535]` and every
`allowed_lossy_error` `n` in `[0, 255]`, `compute_default(m, n)` and
`compute_default(m', n)` have the same `threshold1`, `threshold2` and `threshold3`,
namely `18 + 3n`, `67 + 5n` and `276 + 7n` (no clamping occurs); so
`compute_default(4095, 0)` and `compute_default(65535, 0)` both give thresholds
`(18, 67, 276)`. -/
theorem compute_default_saturates (m m' n : Int)
    (hm : 4095 ≤ m ∧ m ≤ 65535) (hm' : 4095 ≤ m' ∧ m' ≤ 65535) (hn : 0 ≤ n ∧ n ≤ 255) :
    ((compute_default m n).threshold1 = 18 + 3 * n ∧
      (compute_default m n).threshold2 = 67 + 5 * n ∧
      (compute_default m n).threshold3 = 276 + 7 * n) ∧
    ((compute_default m' n).threshold1 = (compute_default m n).threshold1 ∧
      (compute_default m' n).threshold2 = (compute_default m n).threshold2 ∧
      (compute_default m' n).threshold3 = (compute_default m n).threshold3) ∧
    compute_default 4095 0 = ⟨4095, 18, 67, 276, 64⟩ ∧
    compute_default 65535 0 = ⟨65535, 18, 67, 276, 64⟩ := by
  have h := compute_default_saturated m n hm.1 hn
  have h' := compute_default_saturated m' n hm'.1 hn
  refine ⟨h, ⟨?_, ?_, ?_⟩, by decide, by decide⟩
  · rw [h.1, h'.1]
  · rw [h.2.1, h'.2.1]
  · rw [h.2.2, h'.2.2]

/-- Witness of C19 at `m = 4095`, `m' = 65535`, `n = 255`: thresholds
`(783, 1342, 2061)` at both depths. -/
theorem compute_default_saturates_witness :
    (compute_default 4095 255).threshold3 = 276 + 7 * 255 ∧
    (compute_default 65535 255).threshold3 = (compute_default 4095 255).threshold3 :=
  have h := compute_default_saturates 4095 65535 255 (by decide) (by decide) (by decide)
  ⟨h.1.2.2, h.2.1.2.2⟩

/-- What `is_valid = true` says about a candidate in general: every non-zero
field lies between its effective predecessor and the effective maximum. -/
theorem is_valid_true_iff (p : jpegls_pc_parameters) (mcv n : Int) :
    is_valid p mcv n = true ↔
      (p.maximum_sample_value ≠ 0 → 1 ≤ p.maximum_sample_value ∧ p.maximum_sample_value ≤ mcv) ∧
      (p.threshold1 ≠ 0 →
        n + 1 ≤ p.threshold1 ∧ p.threshold1 ≤ (effective_parameters p mcv n).maximum_sample_value) ∧
      (p.threshold2 ≠ 0 →
        (effective_parameters p mcv n).threshold1 ≤ p.threshold2 ∧
          p.threshold2 ≤ (effective_parameters p mcv n).maximum_sample_value) ∧
      (p.threshold3 ≠ 0 →
        (effective_parameters p mcv n).threshold2 ≤ p.threshold3 ∧
          p.threshold3 ≤ (effective_parameters p mcv n).maximum_sample_value) ∧
      (p.reset_value ≠ 0 →
        3 ≤ p.reset_value ∧
          p.reset_value ≤ max 255 (effective_parameters p mcv n).maximum_sample_value) := by
  by_cases h0 : p.maximum_sample_value = 0 <;> by_cases h1 : p.threshold1 = 0 <;>
    by_cases h2 : p.threshold2 = 0 <;> by_cases h3 : p.threshold3 = 0 <;>
    by_cases h4 : p.reset_value = 0 <;>
    simp only [is_valid, effective_parameters, effective_maximum_sample_value, h0, h1, h2, h3,
      h4, ne_eq, not_true_eq_false, not_false_eq_true, false_and, true_and, if_true, if_false,
      false_implies, true_implies, and_true, true_and] <;>
    (try split_ifs) <;> (try simp only [Bool.false_eq_true, false_iff, true_iff]) <;>
    (try omega)

/-- Counterexample to C15 as stated.  The candidate `{0, 100, 0, 0, 0}` is accepted
for an 8-bit lossless component, yet its effective set is `{255, 100, 7, 21, 64}`,
where `threshold1 = 100 > threshold2 = 7`.  The candidate `{5, 0, 0, 0, 0}` is
accepted for an 8-bit component with `allowed_lossy_error = 8`, yet its effective
set is `{5, 9, 9, 9, 64}`, where `threshold3 = 9 > maximum_sample_value = 5`. -/
theorem effective_parameters_chain_fails :
    ((1 ≤ (255 : Int) ∧ (255 : Int) ≤ 65535) ∧
      (0 ≤ (0 : Int) ∧ (0 : Int) ≤ MaximumNearLossless 255) ∧
      is_valid ⟨0, 100, 0, 0, 0⟩ 255 0 = true ∧
      effective_parameters ⟨0, 100, 0, 0, 0⟩ 255 0 = ⟨255, 100, 7, 21, 64⟩ ∧
      ¬ ((0 : Int) < (effective_parameters ⟨0, 100, 0, 0, 0⟩ 255 0).threshold1 ∧
        (effective_parameters ⟨0, 100, 0, 0, 0⟩ 255 0).threshold1 ≤
          (effective_parameters ⟨0, 100, 0, 0, 0⟩ 255 0).threshold2 ∧
        (effective_parameters ⟨0, 100, 0, 0, 0⟩ 255 0).threshold2 ≤
          (effective_parameters ⟨0, 100, 0, 0, 0⟩ 255 0).threshold3 ∧
        (effective_parameters ⟨0, 100, 0, 0, 0⟩ 255 0).threshold3 ≤
          (effective_parameters ⟨0, 100, 0, 0, 0⟩ 255 0).maximum_sample_value)) ∧
    ((0 ≤ (8 : Int) ∧ (8 : Int) ≤ MaximumNearLossless 255) ∧
      is_valid ⟨5, 0, 0, 0, 0⟩ 255 8 = true ∧
      effective_parameters ⟨5, 0, 0, 0, 0⟩ 255 8 = ⟨5, 9, 9, 9, 64⟩ ∧
      ¬ ((8 : Int) < (effective_parameters ⟨5, 0, 0, 0, 0⟩ 255 8).threshold1 ∧
        (effective_parameters ⟨5, 0, 0, 0, 0⟩ 255 8).threshold1 ≤
          (effective_parameters ⟨5, 0, 0, 0, 0⟩ 255 8).threshold2 ∧
        (effective_parameters ⟨5, 0, 0, 0, 0⟩ 255 8).threshold2 ≤
          (effective_parameters ⟨5, 0, 0, 0, 0⟩ 255 8).threshold3 ∧
        (effective_parameters ⟨5, 0, 0, 0, 0⟩ 255 8).threshold3 ≤
          (effective_parameters ⟨5, 0, 0, 0, 0⟩ 255 8).maximum_sample_value)) := by
  decide

/-- Claim C15, amended: for every `maximum_component_value` in `[1, 65535]`, every
`allowed_lossy_error` in `[0, MaximumNearLossless(maximum_component_value)]` and
every candidate accepted by `is_valid` in which no zero threshold follows a
non-zero one (`threshold2 = 0` only if `threshold1 = 0`, `threshold3 = 0` only if
`threshold2 = 0`) and for which `allowed_lossy_error` is at most
`MaximumNearLossless(effective maximum_sample_value)` (the precondition of the
`compute_default` call), the effective parameter set satisfies
`allowed_lossy_error < threshold1 <= threshold2 <= threshold3 <= maximum_sample_value`. -/
theorem effective_parameters_chain (candidate : jpegls_pc_parameters)
    (maximum_component_value allowed_lossy_error : Int)
    (hm : 1 ≤ maximum_component_value ∧ maximum_component_value ≤ 65535)
    (_hn : 0 ≤ allowed_lossy_error ∧
      allowed_lossy_error ≤ MaximumNearLossless maximum_component_value)
    (h_valid : is_valid candidate maximum_component_value allowed_lossy_error = true)
    (h21 : candidate.threshold2 = 0 → candidate.threshold1 = 0)
    (h32 : candidate.threshold3 = 0 → candidate.threshold2 = 0)
    (h_near : allowed_lossy_error ≤
      MaximumNearLossless (effective_maximum_sample_value candidate maximum_component_value)) :
    allowed_lossy_error <
      (effective_parameters candidate maximum_component_value allowed_lossy_error).threshold1 ∧
    (effective_parameters candidate maximum_component_value allowed_lossy_error).threshold1 ≤
      (effective_parameters candidate maximum_component_value allowed_lossy_error).threshold2 ∧
    (effective_parameters candidate maximum_component_value allowed_lossy_error).threshold2 ≤
      (effective_parameters candidate maximum_component_value allowed_lossy_error).threshold3 ∧
    (effective_parameters candidate maximum_component_value allowed_lossy_error).threshold3 ≤
      (effective_parameters candidate maximum_component_value
        allowed_lossy_error).maximum_sample_value := by
  obtain ⟨g0, g1, g2, g3, -⟩ := (is_valid_true_iff _ _ _).mp h_valid
  have hM : 1 ≤ effective_maximum_sample_value candidate maximum_component_value := by
    unfold effective_maximum_sample_value
    split
    · rename_i h0
      exact (g0 h0).1
    · exact hm.1
  have hd := compute_default_chain
    (effective_maximum_sample_value candidate maximum_component_value) allowed_lossy_error
    (near_lossless_succ_le _ _ hM h_near)
  by_cases h1 : candidate.threshold1 = 0 <;> by_cases h2 : candidate.threshold2 = 0 <;>
    by_cases h3 : candidate.threshold3 = 0 <;>
    simp only [effective_parameters, h1, h2, h3, ne_eq, not_true_eq_false, not_false_eq_true,
      if_true, if_false, true_implies, false_implies] at g1 g2 g3 ⊢ <;>
    omega

/-- Witness of the amended C15: the candidate `{0, 0, 0, 30, 0}` for an 8-bit
lossless component is accepted and its effective set is `{255, 3, 7, 30, 64}`. -/
theorem effective_parameters_chain_witness :
    (0 : Int) < (effective_parameters ⟨0, 0, 0, 30, 0⟩ 255 0).threshold1 ∧
    (effective_parameters ⟨0, 0, 0, 30, 0⟩ 255 0).threshold1 ≤
      (effective_parameters ⟨0, 0, 0, 30, 0⟩ 255 0).threshold2 ∧
    (effective_parameters ⟨0, 0, 0, 30, 0⟩ 255 0).threshold2 ≤
      (effective_parameters ⟨0, 0, 0, 30, 0⟩ 255 0).threshold3 ∧
    (effective_parameters ⟨0, 0, 0, 30, 0⟩ 255 0).threshold3 ≤
      (effective_parameters ⟨0, 0, 0, 30, 0⟩ 255 0).maximum_sample_value :=
  effective_parameters_chain ⟨0, 0, 0, 30, 0⟩ 255 0 (by decide) (by decide) (by decide)
    (by decide) (by decide) (by decide)

/-- Whenever the build with assertions returns a boolean, it is the one `is_valid`
returns. -/
theorem is_valid_checked_eq (p : jpegls_pc_parameters) (mcv n : Int) (b : Bool)
    (h : is_valid_checked p mcv n = some b) : is_valid p mcv n = b := by
  unfold is_valid_checked compute_default_checked at h
  unfold is_valid
  by_cases hp : is_valid_pre mcv
  · by_cases h0 : p.maximum_sample_value = 0
    · simp only [hp, h0, ne_eq, not_true_eq_false, not_false_eq_true, false_and, if_true,
        if_false] at h ⊢
      by_cases hpre : compute_default_pre mcv n
      · simp only [hpre, if_true] at h
        split_ifs at h ⊢ <;> simp_all
      · simp only [hpre, if_false] at h
        split_ifs at h ⊢
        simp_all
    · simp only [hp, h0, ne_eq, not_true_eq_false, not_false_eq_true, true_and, if_true,
        if_false] at h ⊢
      by_cases hpre : compute_default_pre p.maximum_sample_value n
      · simp only [hpre, if_true] at h
        split_ifs at h ⊢ <;> simp_all
      · simp only [hpre, if_false] at h
        split_ifs at h ⊢ <;> simp_all
  · simp [hp] at h

/-- Claim C16, evaluated on the source: C16 says that every `compute_default` call
that `is_valid` reaches satisfies the assertions of `compute_default`.  For the
candidate `{5, 0, 0, 0, 0}` with `maximum_component_value = 255` and
`allowed_lossy_error = 8` (in range, since `MaximumNearLossless(255) = 127`, and
passing the assertion of `is_valid`) the call is `compute_default(5, 8)`, and
`8 > MaximumNearLossless(5) = 2`: the second assertion of `compute_default` fails,
so with assertions active `is_valid` returns nothing, while without them it
returns true. -/
theorem is_valid_call_breaks_assertion :
    (1 ≤ (255 : Int) ∧ (255 : Int) ≤ 65535) ∧
    (0 ≤ (8 : Int) ∧ (8 : Int) ≤ MaximumNearLossless 255) ∧
    is_valid_pre 255 ∧
    effective_maximum_sample_value ⟨5, 0, 0, 0, 0⟩ 255 = 5 ∧
    MaximumNearLossless 5 = 2 ∧
    ¬ compute_default_pre 5 8 ∧
    compute_default_checked 5 8 = none ∧
    is_valid_checked ⟨5, 0, 0, 0, 0⟩ 255 8 = none ∧
    is_valid ⟨5, 0, 0, 0, 0⟩ 255 8 = true := by
  decide

/-- With its own assertion and those of the `compute_default` call satisfied, the
build with assertions returns the boolean that `is_valid` returns. -/
theorem is_valid_checked_of_pre (p : jpegls_pc_parameters) (mcv n : Int)
    (hp : is_valid_pre mcv)
    (hc : compute_default_pre (effective_maximum_sample_value p mcv) n) :
    is_valid_checked p mcv n = some (is_valid p mcv n) := by
  unfold is_valid_checked compute_default_checked is_valid
  unfold effective_maximum_sample_value at hc
  by_cases h0 : p.maximum_sample_value = 0
  · simp only [h0, ne_eq, not_true_eq_false, if_false] at hc
    simp only [hp, h0, hc, ne_eq, not_true_eq_false, not_false_eq_true, false_and, if_true,
      if_false]
    split_ifs <;> rfl
  · simp only [h0, ne_eq, not_false_eq_true, if_true] at hc
    simp only [hp, h0, hc, ne_eq, not_true_eq_false, not_false_eq_true, true_and, if_true,
      if_false]
    split_ifs <;> rfl

/-- Claim C3, evaluated on the source: C3 says that `is_valid` returns true for
every candidate without a zero field that satisfies
`1 <= maximum_sample_value <= maximum_component_value`,
`allowed_lossy_error < threshold1 <= threshold2 <= threshold3 <= maximum_sample_value`
and `3 <= reset_value <= max(255, maximum_sample_value)`.  The candidate
`{5, 4, 4, 5, 64}` with `maximum_component_value = 255` and
`allowed_lossy_error = 3` is such a candidate, yet `is_valid` calls
`compute_default(5, 3)` with `3 > MaximumNearLossless(5) = 2`: the assertion of
`compute_default` fails, so with assertions active `is_valid` returns nothing
(without them it returns true). -/
theorem is_valid_legal_candidate_breaks_assertion :
    ((⟨5, 4, 4, 5, 64⟩ : jpegls_pc_parameters).maximum_sample_value ≠ 0 ∧
      (⟨5, 4, 4, 5, 64⟩ : jpegls_pc_parameters).threshold1 ≠ 0 ∧
      (⟨5, 4, 4, 5, 64⟩ : jpegls_pc_parameters).threshold2 ≠ 0 ∧
      (⟨5, 4, 4, 5, 64⟩ : jpegls_pc_parameters).threshold3 ≠ 0 ∧
      (⟨5, 4, 4, 5, 64⟩ : jpegls_pc_parameters).reset_value ≠ 0) ∧
    (1 ≤ (255 : Int) ∧ (255 : Int) ≤ 65535) ∧
    (0 ≤ (3 : Int) ∧ (3 : Int) ≤ MaximumNearLossless 255) ∧
    ((1 ≤ (⟨5, 4, 4, 5, 64⟩ : jpegls_pc_parameters).maximum_sample_value ∧
        (⟨5, 4, 4, 5, 64⟩ : jpegls_pc_parameters).maximum_sample_value ≤ 255) ∧
      (3 < (⟨5, 4, 4, 5, 64⟩ : jpegls_pc_parameters).threshold1 ∧
        (⟨5, 4, 4, 5, 64⟩ : jpegls_pc_parameters).threshold1 ≤
          (⟨5, 4, 4, 5, 64⟩ : jpegls_pc_parameters).threshold2 ∧
        (⟨5, 4, 4, 5, 64⟩ : jpegls_pc_parameters).threshold2 ≤
          (⟨5, 4, 4, 5, 64⟩ : jpegls_pc_parameters).threshold3 ∧
        (⟨5, 4, 4, 5, 64⟩ : jpegls_pc_parameters).threshold3 ≤
          (⟨5, 4, 4, 5, 64⟩ : jpegls_pc_parameters).maximum_sample_value) ∧
      (3 ≤ (⟨5, 4, 4, 5, 64⟩ : jpegls_pc_parameters).reset_value ∧
        (⟨5, 4, 4, 5, 64⟩ : jpegls_pc_parameters).reset_value ≤
          max 255 (⟨5, 4, 4, 5, 64⟩ : jpegls_pc_parameters).maximum_sample_value)) ∧
    is_valid_pre 255 ∧
    effective_maximum_sample_value ⟨5, 4, 4, 5, 64⟩ 255 = 5 ∧
    MaximumNearLossless 5 = 2 ∧
    ¬ compute_default_pre 5 3 ∧
    compute_default_checked 5 3 = none ∧
    is_valid_checked ⟨5, 4, 4, 5, 64⟩ 255 3 = none ∧
    is_valid ⟨5, 4, 4, 5, 64⟩ 255 3 = true := by
  decide

/-- On a candidate without a zero field whose `compute_default` call meets its
assertions (`allowed_lossy_error` in
`[0, MaximumNearLossless(maximum_sample_value)]`), the build with assertions
returns true exactly for the candidates C3 describes. -/
theorem is_valid_checked_iff_of_nonzero (p : jpegls_pc_parameters) (mcv n : Int)
    (h0 : p.maximum_sample_value ≠ 0) (h1 : p.threshold1 ≠ 0) (h2 : p.threshold2 ≠ 0)
    (h3 : p.threshold3 ≠ 0) (h4 : p.reset_value ≠ 0)
    (hm : 1 ≤ mcv ∧ mcv ≤ 65535)
    (hn : 0 ≤ n ∧ n ≤ MaximumNearLossless p.maximum_sample_value) :
    is_valid_checked p mcv n = some true ↔
      (1 ≤ p.maximum_sample_value ∧ p.maximum_sample_value ≤ mcv) ∧
      (n < p.threshold1 ∧ p.threshold1 ≤ p.threshold2 ∧ p.threshold2 ≤ p.threshold3 ∧
        p.threshold3 ≤ p.maximum_sample_value) ∧
      (3 ≤ p.reset_value ∧ p.reset_value ≤ max 255 p.maximum_sample_value) := by
  constructor
  · intro h
    exact (is_valid_iff_of_nonzero p mcv n h0 h1 h2 h3 h4).mp (is_valid_checked_eq p mcv n true h)
  · intro h
    have hv := (is_valid_iff_of_nonzero p mcv n h0 h1 h2 h3 h4).mpr h
    have hc : compute_default_pre (effective_maximum_sample_value p mcv) n := by
      unfold effective_maximum_sample_value compute_default_pre
      rw [if_pos h0]
      exact ⟨by omega, hn.1, hn.2⟩
    rw [is_valid_checked_of_pre p mcv n hm.2 hc, hv]

/-- The function `clamp` returns one of its first two arguments. -/
theorem clamp_eq_or (i j m : Int) : clamp i j m = j ∨ clamp i j m = i := by
  unfold clamp; split <;> simp

/-- In the branch below 128 the factor `256 / (maximum_sample_value + 1)` lies in
`[2, 128]`. -/
theorem compute_default_small_factor (m : Int) (hm : 1 ≤ m ∧ m < 128) :
    2 ≤ Int.tdiv 256 (m + 1) ∧ Int.tdiv 256 (m + 1) ≤ 128 := by
  rw [Int.tdiv_eq_ediv (by omega) (by omega)]
  constructor
  · exact (Int.le_ediv_iff_mul_le (by omega)).mpr (by omega)
  · have h := (Int.ediv_lt_iff_lt_mul (a := 256) (b := 129) (c := m + 1) (by omega)).mpr
      (by omega)
    omega

/-- A non-negative constant divided by a non-negative divisor stays between 0 and
the constant. -/
theorem tdiv_bounds (c f : Int) (hc : 0 ≤ c) (hf : 0 ≤ f) :
    0 ≤ Int.tdiv c f ∧ Int.tdiv c f ≤ c := by
  refine ⟨Int.tdiv_nonneg hc hf, ?_⟩
  rw [Int.tdiv_eq_ediv hc hf]
  exact Int.ediv_le_self f hc

/-- Counterexample to C20 as stated: at `maximum_sample_value = 4095`,
`allowed_lossy_error = 0`, the dividend `min(4095, 4095) + 128 = 4223` of the
factor is an intermediate value of `compute_default`, and it exceeds 2061. -/
theorem compute_default_intermediate_above_2061 :
    (1 ≤ (4095 : Int) ∧ (4095 : Int) ≤ 65535) ∧
    (0 ≤ (0 : Int) ∧ (0 : Int) ≤ MaximumNearLossless 4095) ∧
    min (4095 : Int) 4095 + 128 = 4223 ∧
    (4223 : Int) ∈ compute_default_intermediates 4095 0 ∧
    ¬ (∀ v ∈ compute_default_intermediates 4095 0, 0 ≤ v ∧ v ≤ 2061) := by
  refine ⟨by decide, by decide, by decide, by decide, ?_⟩
  intro h
  have := (h 4223 (by decide)).2
  omega

/-- Under the two assertions and `maximum_sample_value >= 1`, the divisors of
`compute_default` are non-zero and every intermediate value lies in `[0, 4223]`,
in `[0, 2061]` apart from the two terms that feed the factor, hence inside
`int32_t`; the returned thresholds are among the intermediate values. -/
theorem compute_default_trace_bounds (maximum_sample_value allowed_lossy_error : Int)
    (hm : 1 ≤ maximum_sample_value ∧ maximum_sample_value ≤ 65535)
    (hn : 0 ≤ allowed_lossy_error ∧
      allowed_lossy_error ≤ MaximumNearLossless maximum_sample_value) :
    (∀ d ∈ compute_default_divisors maximum_sample_value, d ≠ 0) ∧
    (maximum_sample_value < 128 →
      2 ≤ Int.tdiv 256 (maximum_sample_value + 1) ∧
        Int.tdiv 256 (maximum_sample_value + 1) ≤ 128) ∧
    (∀ v ∈ compute_default_intermediates maximum_sample_value allowed_lossy_error,
      (0 ≤ v ∧ v ≤ 4223) ∧
      (v ≤ 2061 ∨ v = min maximum_sample_value 4095 ∨
        v = min maximum_sample_value 4095 + 128) ∧
      int32 v) ∧
    ((compute_default maximum_sample_value allowed_lossy_error).threshold1 ∈
        compute_default_intermediates maximum_sample_value allowed_lossy_error ∧
      (compute_default maximum_sample_value allowed_lossy_error).threshold2 ∈
        compute_default_intermediates maximum_sample_value allowed_lossy_error ∧
      (compute_default maximum_sample_value allowed_lossy_error).threshold3 ∈
        compute_default_intermediates maximum_sample_value allowed_lossy_error) := by
  have hnear : allowed_lossy_error ≤ 255 ∧ 2 * allowed_lossy_error ≤ maximum_sample_value := by
    have h := hn.2
    unfold MaximumNearLossless at h
    rw [Int.tdiv_eq_ediv (by omega) (by omega)] at h
    omega
  by_cases hbranch : maximum_sample_value ≥ 128
  · have hfactor : 1 ≤ Int.tdiv (min maximum_sample_value 4095 + 128) 256 ∧
        Int.tdiv (min maximum_sample_value 4095 + 128) 256 ≤ 16 := by
      rw [Int.tdiv_eq_ediv (by omega) (by omega)]
      omega
    refine ⟨?_, fun h => absurd h (by omega), ?_, ?_⟩
    · intro d hd
      simp only [compute_default_divisors, if_pos hbranch, List.mem_singleton] at hd
      omega
    · intro v hv
      simp only [compute_default_intermediates, if_pos hbranch, DefaultThreshold1,
        DefaultThreshold2, DefaultThreshold3, List.mem_cons, List.mem_singleton,
        List.not_mem_nil, or_false] at hv
      generalize Int.tdiv (min maximum_sample_value 4095 + 128) 256 = factor at hv hfactor
      have c1 := clamp_eq_or (factor * (3 - 2) + 2 + 3 * allowed_lossy_error)
        (allowed_lossy_error + 1) maximum_sample_value
      generalize clamp (factor * (3 - 2) + 2 + 3 * allowed_lossy_error)
        (allowed_lossy_error + 1) maximum_sample_value = t1 at hv c1
      have c2 := clamp_eq_or (factor * (7 - 3) + 3 + 5 * allowed_lossy_error) t1
        maximum_sample_value
      generalize clamp (factor * (7 - 3) + 3 + 5 * allowed_lossy_error) t1
        maximum_sample_value = t2 at hv c2
      have c3 := clamp_eq_or (factor * (21 - 4) + 4 + 7 * allowed_lossy_error) t2
        maximum_sample_value
      generalize clamp (factor * (21 - 4) + 4 + 7 * allowed_lossy_error) t2
        maximum_sample_value = t3 at hv c3
      unfold int32
      omega
    · simp [compute_default, compute_default_intermediates, if_pos hbranch]
  · have hsmall : maximum_sample_value < 128 := by omega
    have hfactor := compute_default_small_factor maximum_sample_value ⟨hm.1, hsmall⟩
    refine ⟨?_, fun _ => hfactor, ?_, ?_⟩
    · intro d hd
      simp only [compute_default_divisors, if_neg hbranch, List.mem_cons, List.mem_singleton,
        List.not_mem_nil, or_false] at hd
      omega
    · intro v hv
      simp only [compute_default_intermediates, if_neg hbranch, DefaultThreshold1,
        DefaultThreshold2, DefaultThreshold3, List.mem_cons, List.mem_singleton,
        List.not_mem_nil, or_false] at hv
      generalize Int.tdiv 256 (maximum_sample_value + 1) = factor at hv hfactor
      have d1 := tdiv_bounds 3 factor (by omega) (by omega)
      have d2 := tdiv_bounds 7 factor (by omega) (by omega)
      have d3 := tdiv_bounds 21 factor (by omega) (by omega)
      generalize Int.tdiv 3 factor = q1 at hv d1
      generalize Int.tdiv 7 factor = q2 at hv d2
      generalize Int.tdiv 21 factor = q3 at hv d3
      have c1 := clamp_eq_or (max 2 (q1 + 3 * allowed_lossy_error))
        (allowed_lossy_error + 1) maximum_sample_value
      generalize clamp (max 2 (q1 + 3 * allowed_lossy_error))
        (allowed_lossy_error + 1) maximum_sample_value = t1 at hv c1
      have c2 := clamp_eq_or (max 3 (q2 + 5 * allowed_lossy_error)) t1 maximum_sample_value
      generalize clamp (max 3 (q2 + 5 * allowed_lossy_error)) t1 maximum_sample_value = t2
        at hv c2
      have c3 := clamp_eq_or (max 4 (q3 + 7 * allowed_lossy_error)) t2 maximum_sample_value
      generalize clamp (max 4 (q3 + 7 * allowed_lossy_error)) t2 maximum_sample_value = t3
        at hv c3
      unfold int32
      omega
    · simp [compute_default, compute_default_intermediates, if_neg hbranch]

/-- Claim C20, amended: for every `maximum_sample_value` in `[1, 65535]` and every
`allowed_lossy_error` in `[0, MaximumNearLossless(maximum_sample_value)]`,
`compute_default` performs no division by zero (in the `< 128` branch
`factor = 256 / (maximum_sample_value + 1)` lies in `[2, 128]`) and every
intermediate value it computes lies in `[0, 4223]` (in `[0, 2061]` apart from
`min(maximum_sample_value, 4095)` and `min(maximum_sample_value, 4095) + 128`), so
no signed 32-bit overflow occurs.  The three returned thresholds are among the
intermediate values. -/
theorem compute_default_no_overflow (maximum_sample_value allowed_lossy_error : Int)
    (hm : 1 ≤ maximum_sample_value ∧ maximum_sample_value ≤ 65535)
    (hn : 0 ≤ allowed_lossy_error ∧
      allowed_lossy_error ≤ MaximumNearLossless maximum_sample_value) :
    (∀ d ∈ compute_default_divisors maximum_sample_value, d ≠ 0) ∧
    (maximum_sample_value < 128 →
      2 ≤ Int.tdiv 256 (maximum_sample_value + 1) ∧
        Int.tdiv 256 (maximum_sample_value + 1) ≤ 128) ∧
    (∀ v ∈ compute_default_intermediates maximum_sample_value allowed_lossy_error,
      (0 ≤ v ∧ v ≤ 4223) ∧
      (v ≤ 2061 ∨ v = min maximum_sample_value 4095 ∨
        v = min maximum_sample_value 4095 + 128) ∧
      int32 v) ∧
    ((compute_default maximum_sample_value allowed_lossy_error).threshold1 ∈
        compute_default_intermediates maximum_sample_value allowed_lossy_error ∧
      (compute_default maximum_sample_value allowed_lossy_error).threshold2 ∈
        compute_default_intermediates maximum_sample_value allowed_lossy_error ∧
      (compute_default maximum_sample_value allowed_lossy_error).threshold3 ∈
        compute_default_intermediates maximum_sample_value allowed_lossy_error) :=
  compute_default_trace_bounds maximum_sample_value allowed_lossy_error hm hn

/-- Witness of the amended C20 at `maximum_sample_value = 127`,
`allowed_lossy_error = 63`: the factor is 2 and the returned `threshold3` is an
intermediate value inside `[0, 4223]`. -/
theorem compute_default_no_overflow_witness :
    (2 ≤ Int.tdiv 256 (127 + 1) ∧ Int.tdiv 256 (127 + 1) ≤ 128) ∧
    (compute_default 127 63).threshold3 ∈ compute_default_intermediates 127 63 ∧
    (0 ≤ (compute_default 127 63).threshold3 ∧ (compute_default 127 63).threshold3 ≤ 4223) :=
  have h := compute_default_no_overflow 127 63 (by decide) (by decide)
  ⟨h.2.1 (by decide), h.2.2.2.2.2, (h.2.2.1 _ h.2.2.2.2.2).1⟩

/-! ## The legacy API -/

/-- The legacy functions are the current ones up to the names of the fields:
`ComputeDefault` and `compute_default` evaluate the same expressions, so on
unbounded integers their five results agree. -/
theorem ComputeDefault_fields (m n : Int) :
    (ComputeDefault m n).MaximumSampleValue = (compute_default m n).maximum_sample_value ∧
    (ComputeDefault m n).Threshold1 = (compute_default m n).threshold1 ∧
    (ComputeDefault m n).Threshold2 = (compute_default m n).threshold2 ∧
    (ComputeDefault m n).Threshold3 = (compute_default m n).threshold3 ∧
    (ComputeDefault m n).ResetValue = (compute_default m n).reset_value := by
  unfold ComputeDefault compute_default
  split <;> exact ⟨rfl, rfl, rfl, rfl, rfl⟩

/-- Counterexample to C17 as stated: `(255, 2147483647)` is a pair of 32-bit
integers with `maximum_sample_value >= 0`, but it breaks the second assertion of
both functions, so with assertions active neither returns any value; and the lower
bound `allowed_lossy_error + 1 = 2147483648` that the first clamp returns does not
fit `int32_t`, so the arithmetic of the source overflows there. -/
theorem legacy_api_outside_assertions :
    int32 255 ∧ int32 2147483647 ∧ (255 : Int) ≥ 0 ∧
    ¬ compute_default_pre 255 2147483647 ∧
    ComputeDefault_checked 255 2147483647 = none ∧
    compute_default_checked 255 2147483647 = none ∧
    ¬ (∃ a b, ComputeDefault_checked 255 2147483647 = some a ∧
        compute_default_checked 255 2147483647 = some b ∧
        a.MaximumSampleValue = b.maximum_sample_value ∧ a.Threshold1 = b.threshold1 ∧
        a.Threshold2 = b.threshold2 ∧ a.Threshold3 = b.threshold3 ∧
        a.ResetValue = b.reset_value) ∧
    (compute_default 255 2147483647).threshold1 = 2147483648 ∧
    ¬ int32 (compute_default 255 2147483647).threshold1 := by
  refine ⟨by decide, by decide, by decide, by decide, by decide, by decide, ?_, by decide,
    by decide⟩
  rintro ⟨a, b, ha, -⟩
  have hnone : ComputeDefault_checked 255 2147483647 = none := by decide
  rw [hnone] at ha
  exact Option.noConfusion ha

/-- Claim C17, amended: the legacy and current APIs agree wherever their assertions
hold: for every pair `(maximum_sample_value, allowed_lossy_error)` with
`0 <= maximum_sample_value <= 65535` and
`0 <= allowed_lossy_error <= MaximumNearLossless(maximum_sample_value)`,
`ComputeDefault` and `compute_default` both return, with the same five values field
for field, and no intermediate value of the computation (the two bodies evaluate
the same expressions) leaves `int32_t`; and for every five-field parameter set
`IsDefault` and `is_default` return the same boolean. -/
theorem legacy_api_agrees_in_range (maximum_sample_value allowed_lossy_error : Int)
    (hm : 0 ≤ maximum_sample_value ∧ maximum_sample_value ≤ 65535)
    (hn : 0 ≤ allowed_lossy_error ∧
      allowed_lossy_error ≤ MaximumNearLossless maximum_sample_value) :
    (∃ a b, ComputeDefault_checked maximum_sample_value allowed_lossy_error = some a ∧
        compute_default_checked maximum_sample_value allowed_lossy_error = some b ∧
        a.MaximumSampleValue = b.maximum_sample_value ∧ a.Threshold1 = b.threshold1 ∧
        a.Threshold2 = b.threshold2 ∧ a.Threshold3 = b.threshold3 ∧
        a.ResetValue = b.reset_value) ∧
    (∀ v ∈ compute_default_intermediates maximum_sample_value allowed_lossy_error, int32 v) ∧
    (∀ a b c d e : Int,
      IsDefault { MaximumSampleValue := a, Threshold1 := b, Threshold2 := c, Threshold3 := d,
                  ResetValue := e } =
        is_default { maximum_sample_value := a, threshold1 := b, threshold2 := c,
                     threshold3 := d, reset_value := e }) := by
  have hpre : compute_default_pre maximum_sample_value allowed_lossy_error :=
    ⟨hm.2, hn.1, hn.2⟩
  refine ⟨⟨ComputeDefault maximum_sample_value allowed_lossy_error,
    compute_default maximum_sample_value allowed_lossy_error, ?_, ?_,
    ComputeDefault_fields maximum_sample_value allowed_lossy_error⟩, ?_, fun a b c d e => rfl⟩
  · unfold ComputeDefault_checked
    rw [if_pos hpre]
  · unfold compute_default_checked
    rw [if_pos hpre]
  · by_cases h0 : maximum_sample_value = 0
    · subst h0
      have hn0 : allowed_lossy_error = 0 := by
        have h := hn.2
        have hmnl : MaximumNearLossless 0 = 0 := by decide
        rw [hmnl] at h
        omega
      subst hn0
      decide
    · intro v hv
      exact ((compute_default_trace_bounds maximum_sample_value allowed_lossy_error
        ⟨by omega, hm.2⟩ hn).2.2.1 v hv).2.2

/-- Witness of the amended C17 at `(4095, 3)`: both APIs return, with
`threshold3 = 297`. -/
theorem legacy_api_agrees_in_range_witness :
    (∃ a b, ComputeDefault_checked 4095 3 = some a ∧ compute_default_checked 4095 3 = some b ∧
        a.MaximumSampleValue = b.maximum_sample_value ∧ a.Threshold1 = b.threshold1 ∧
        a.Threshold2 = b.threshold2 ∧ a.Threshold3 = b.threshold3 ∧
        a.ResetValue = b.reset_value) ∧
    (∀ v ∈ compute_default_intermediates 4095 3, int32 v) :=
  have h := legacy_api_agrees_in_range 4095 3 (by decide) (by decide)
  ⟨h.1, h.2.1⟩

end charls
